import Mathlib

/-!
Verification of the `am-reputation` Hyperledger Fabric chaincode
(`src/chaincode/main.go`), a staked reputation engine with Bayesian
Beta-distribution scores, rater weighting, time decay, Wilson confidence
intervals and a dispute state machine.

Embedding conventions:
* Go strings are modelled as `List Nat` of Unicode code points (all the
  identities and dimension names handled by the contract are ASCII, where
  code points and bytes coincide).
* Go `float64` values are modelled as real numbers (exact arithmetic);
  `math.Sqrt` is `Real.sqrt` and `math.Pow` is `Real.rpow`.
* The Fabric ledger is an association list from keys to typed records.
  Each chaincode invocation reads from the committed snapshot (Fabric's
  `GetState` does not see the transaction's own `PutState` writes) and
  accumulates writes that are applied at commit; a failed invocation
  commits nothing.
* `time.Now().Unix()` is a single `now : Int` parameter per invocation.
-/

namespace AmRep

/-! ## Go string primitives -/

/-- A Go string, as its list of code points (bytes, for ASCII data). -/
abbrev GoStr := List Nat

/-- Convert a string literal to the `GoStr` model. -/
def strToGo (s : String) : GoStr := s.data.map Char.toNat

/-- ASCII lower-casing of one code point, as `strings.ToLower` acts on it. -/
def lowChar (c : Nat) : Nat := if 65 ≤ c ∧ c ≤ 90 then c + 32 else c

/-- ASCII upper-casing of one code point, as `strings.ToUpper` acts on it. -/
def upChar (c : Nat) : Nat := if 97 ≤ c ∧ c ≤ 122 then c - 32 else c

/-- `strings.ToLower`. -/
def goToLower (s : GoStr) : GoStr := s.map lowChar

/-- `strings.ToUpper`. -/
def goToUpper (s : GoStr) : GoStr := s.map upChar

/-- `strings.HasPrefix s p`. -/
def goStartsWith : GoStr → GoStr → Bool
  | _, [] => true
  | [], _ :: _ => false
  | c :: s, p :: ps => c == p && goStartsWith s ps

/-- `strings.TrimPrefix s p`: drop `p` from the front when present. -/
def goDropStart (s p : GoStr) : GoStr :=
  if goStartsWith s p then s.drop p.length else s

/-- `strings.Contains s sub` (substring search). -/
def goContains : GoStr → GoStr → Bool
  | [], sub => sub.isEmpty
  | c :: rest, sub => goStartsWith (c :: rest) sub || goContains rest sub

/-- White-space test used by `strings.TrimSpace` (ASCII subset). -/
def isSpace (c : Nat) : Bool := c == 32 || c == 9 || c == 10 || c == 13 || c == 11 || c == 12

/-- `strings.TrimSpace`. -/
def goTrimSpace (s : GoStr) : GoStr :=
  ((s.dropWhile isSpace).reverse.dropWhile isSpace).reverse

/-- Index of the first occurrence of `sep` in `s`, if any. -/
def goFindIdx : GoStr → GoStr → Option Nat
  | [], sub => if sub.isEmpty then some 0 else none
  | c :: rest, sub =>
    if goStartsWith (c :: rest) sub then some 0
    else match goFindIdx rest sub with
      | some i => some (i + 1)
      | none => none

/-- Worker for `strings.Split` (fuel bounds the recursion). -/
def goSplitAux : Nat → GoStr → GoStr → List GoStr
  | 0, s, _ => [s]
  | fuel + 1, s, sep =>
    match goFindIdx s sep with
    | none => [s]
    | some i => s.take i :: goSplitAux fuel (s.drop (i + sep.length)) sep

/-- `strings.Split s sep` for non-empty `sep`. -/
def goSplit (s sep : GoStr) : List GoStr := goSplitAux (s.length + 1) s sep

/-! ## Base64 (Go `encoding/base64` StdEncoding decoding) -/

/-- Value of one character of the standard base64 alphabet. -/
def b64Val (c : Nat) : Option Nat :=
  if 65 ≤ c ∧ c ≤ 90 then some (c - 65)
  else if 97 ≤ c ∧ c ≤ 122 then some (c - 71)
  else if 48 ≤ c ∧ c ≤ 57 then some (c + 4)
  else if c = 43 then some 62
  else if c = 47 then some 63
  else none

/-- Decode whole 4-character quanta; `=` padding is accepted only in the
final quantum, as Go's `StdEncoding` requires. -/
def b64Quanta : GoStr → Option (List Nat)
  | [] => some []
  | c1 :: c2 :: c3 :: c4 :: rest =>
    match b64Val c1, b64Val c2 with
    | some v1, some v2 =>
      if c3 = 61 then
        if c4 = 61 ∧ rest = [] then some [v1 * 4 + v2 / 16] else none
      else
        match b64Val c3 with
        | some v3 =>
          if c4 = 61 then
            if rest = [] then some [v1 * 4 + v2 / 16, (v2 % 16) * 16 + v3 / 4] else none
          else
            match b64Val c4 with
            | some v4 =>
              match b64Quanta rest with
              | some bs => some ((v1 * 4 + v2 / 16) :: ((v2 % 16) * 16 + v3 / 4) ::
                  ((v3 % 4) * 64 + v4) :: bs)
              | none => none
            | none => none
        | none => none
    | _, _ => none
  | _ => none

/-- `base64.StdEncoding.DecodeString` (CR and LF are skipped, everything
else must form valid padded quanta). -/
def base64Decode (s : GoStr) : Option GoStr :=
  b64Quanta (s.filter (fun c => !(c == 13 || c == 10)))

/-! ## Identity normalization (`normalizeIdentity`, main.go 1215-1243) -/

def x509Marker : GoStr := strToGo ("x509::")
def dcolon : GoStr := strToGo ("::")
def commaStr : GoStr := strToGo (",")
def cnUpperTag : GoStr := strToGo ("CN=")
def cnLowerTag : GoStr := strToGo ("cn=")

/-- The loop over comma-separated DN fields: the first field whose trimmed,
upper-cased form starts with `CN=` yields the CN (trimmed form with the
`CN=` then `cn=` literals stripped). -/
def findCN : List GoStr → Option GoStr
  | [] => none
  | f :: rest =>
    let t := goTrimSpace f
    if goStartsWith (goToUpper t) cnUpperTag then
      some (goDropStart (goDropStart t cnUpperTag) cnLowerTag)
    else findCN rest

/-- `normalizeIdentity`: optional base64 decode, CN extraction from an
`x509::`-marked distinguished name, and lower-casing. -/
def normalizeIdentity (identity : GoStr) : GoStr :=
  let id1 := match base64Decode identity with
    | some d => d
    | none => identity
  if goContains id1 x509Marker then
    let parts := goSplit id1 dcolon
    if 2 ≤ parts.length then
      match findCN (goSplit (parts.getD 1 []) commaStr) with
      | some cn => goToLower cn
      | none => goToLower id1
    else goToLower id1
  else goToLower id1

/-! ## SHA-256 (Go `crypto/sha256`), used by the ID generators -/

/-- Truncate to 32 bits. -/
def w32 (x : Nat) : Nat := x % 4294967296

/-- Rotate a 32-bit word right by `n`. -/
def rotr32 (n x : Nat) : Nat := x / 2 ^ n + (x % 2 ^ n) * 2 ^ (32 - n)

/-- 32-bit bitwise complement. -/
def not32 (x : Nat) : Nat := 4294967295 - x

def sha256K : List Nat :=
  [1116352408, 1899447441, 3049323471, 3921009573, 961987163,
   1508970993, 2453635748, 2870763221, 3624381080, 310598401,
   607225278, 1426881987, 1925078388, 2162078206, 2614888103,
   3248222580, 3835390401, 4022224774, 264347078, 604807628,
   770255983, 1249150122, 1555081692, 1996064986, 2554220882,
   2821834349, 2952996808, 3210313671, 3336571891, 3584528711,
   113926993, 338241895, 666307205, 773529912, 1294757372,
   1396182291, 1695183700, 1986661051, 2177026350, 2456956037,
   2730485921, 2820302411, 3259730800, 3345764771, 3516065817,
   3600352804, 4094571909, 275423344, 430227734, 506948616,
   659060556, 883997877, 958139571, 1322822218, 1537002063,
   1747873779, 1955562222, 2024104815, 2227730452, 2361852424,
   2428436474, 2756734187, 3204031479, 3329325298]

def sha256H0 : List Nat :=
  [1779033703, 3144134277, 1013904242, 2773480762,
   1359893119, 2600822924, 528734635, 1541459225]

/-- Big-endian bytes (fixed width `k` bytes) of a number. -/
def beBytes : Nat → Nat → List Nat
  | 0, _ => []
  | k + 1, n => beBytes k (n / 256) ++ [n % 256]

/-- SHA-256 padding: `0x80`, zeros to 56 mod 64, then the 64-bit bit length. -/
def sha256Pad (msg : List Nat) : List Nat :=
  let L := msg.length
  let k := (64 + 56 - (L + 1) % 64) % 64
  msg ++ 128 :: List.replicate k 0 ++ beBytes 8 (8 * L)

/-- Split into blocks of 64 bytes (fuel-bounded). -/
def chunk64 : Nat → List Nat → List (List Nat)
  | 0, _ => []
  | _, [] => []
  | fuel + 1, bs => bs.take 64 :: chunk64 fuel (bs.drop 64)

/-- A 64-byte block as sixteen big-endian 32-bit words. -/
def blockWords : Nat → List Nat → List Nat
  | 0, _ => []
  | k + 1, b1 :: b2 :: b3 :: b4 :: rest =>
    (((b1 * 256 + b2) * 256 + b3) * 256 + b4) :: blockWords k rest
  | _ + 1, _ => []

/-- Extend the 16-word schedule to 64 words. -/
def sha256Schedule (w : List Nat) : Nat → List Nat
  | 0 => w
  | j + 1 =>
    let w' := sha256Schedule w j
    let i := w'.length
    let s0 := rotr32 7 (w'.getD (i - 15) 0) ^^^ rotr32 18 (w'.getD (i - 15) 0) ^^^
      (w'.getD (i - 15) 0) / 2 ^ 3
    let s1 := rotr32 17 (w'.getD (i - 2) 0) ^^^ rotr32 19 (w'.getD (i - 2) 0) ^^^
      (w'.getD (i - 2) 0) / 2 ^ 10
    w' ++ [w32 (w'.getD (i - 16) 0 + s0 + w'.getD (i - 7) 0 + s1)]

/-- One round of the SHA-256 compression function. -/
def sha256Round (st : List Nat) (kw : Nat × Nat) : List Nat :=
  match st with
  | [a, b, c, d, e, f, g, h] =>
    let s1 := rotr32 6 e ^^^ rotr32 11 e ^^^ rotr32 25 e
    let ch := (e &&& f) ^^^ (not32 e &&& g)
    let t1 := w32 (h + s1 + ch + kw.1 + kw.2)
    let s0 := rotr32 2 a ^^^ rotr32 13 a ^^^ rotr32 22 a
    let mj := (a &&& b) ^^^ (a &&& c) ^^^ (b &&& c)
    let t2 := w32 (s0 + mj)
    [w32 (t1 + t2), a, b, c, w32 (d + t1), e, f, g]
  | st => st

/-- Compress one 64-byte block into the running hash state. -/
def sha256Compress (h : List Nat) (block : List Nat) : List Nat :=
  let ws := sha256Schedule (blockWords 16 block) 48
  let st := (sha256K.zip ws).foldl sha256Round h
  (h.zip st).map (fun p => w32 (p.1 + p.2))

/-- SHA-256 digest (32 bytes) of a byte sequence. -/
def sha256 (msg : List Nat) : List Nat :=
  let padded := sha256Pad msg
  let final := (chunk64 (padded.length / 64 + 1) padded).foldl sha256Compress sha256H0
  final.flatMap (beBytes 4)

/-- Lowercase hex encoding of bytes (`fmt.Sprintf %x`). -/
def hexOfBytes (bs : List Nat) : GoStr :=
  bs.flatMap (fun b =>
    [if b / 16 < 10 then 48 + b / 16 else 87 + b / 16,
     if b % 16 < 10 then 48 + b % 16 else 87 + b % 16])

/-- Decimal digits of a natural number (fuel-bounded worker). -/
def natDecAux : Nat → Nat → GoStr
  | 0, _ => []
  | fuel + 1, n => if n < 10 then [48 + n] else natDecAux fuel (n / 10) ++ [48 + n % 10]

/-- `fmt.Sprintf %d` of an `int64`. -/
def intDec (i : Int) : GoStr :=
  if i < 0 then 45 :: natDecAux (i.natAbs + 1) i.natAbs else natDecAux (i.toNat + 1) i.toNat

def colonStr : GoStr := strToGo (":")
def ratingTag : GoStr := strToGo ("RATING:")
def disputeTag : GoStr := strToGo ("DISPUTE:")

/-- `generateRatingID` (main.go 1465-1469): `RATING:` plus the hex of the
first 16 bytes of SHA-256 over `rater:actor:dimension:timestamp`. -/
def generateRatingID (raterID actorID dimension : GoStr) (timestamp : Int) : GoStr :=
  ratingTag ++ hexOfBytes ((sha256
    (raterID ++ colonStr ++ actorID ++ colonStr ++ dimension ++ colonStr ++ intDec timestamp)).take 16)

/-- `generateDisputeID` (main.go 1472-1476). -/
def generateDisputeID (ratingID initiatorID : GoStr) (timestamp : Int) : GoStr :=
  disputeTag ++ hexOfBytes ((sha256
    (ratingID ++ colonStr ++ initiatorID ++ colonStr ++ intDec timestamp)).take 16)

/-! ## Concrete identities and dimensions used in the scenarios -/

def aliceS : GoStr := strToGo ("alice")
def bobS : GoStr := strToGo ("bob")
def carolS : GoStr := strToGo ("carol")
def qualityS : GoStr := strToGo ("quality")
def bogusS : GoStr := strToGo ("bogus")
def metaQualityS : GoStr := strToGo ("rating_quality")

/-! ## Data model (main.go 44-113); float64 fields modelled as reals -/

noncomputable section

structure SystemConfig where
  MinStakeRequired : ℝ
  DisputeCost : ℝ
  SlashPercentage : ℝ
  DecayRate : ℝ
  DecayPeriod : ℝ
  InitialAlpha : ℝ
  InitialBeta : ℝ
  MinRaterWeight : ℝ
  MaxRaterWeight : ℝ
  ValidDimensions : List GoStr
  MetaDimensions : List (GoStr × GoStr)
  Version : Int
  LastUpdated : Int

structure Reputation where
  ActorID : GoStr
  Dimension : GoStr
  Alpha : ℝ
  Beta : ℝ
  TotalEvents : Int
  LastTs : Int

structure Rating where
  RatingID : GoStr
  RaterID : GoStr
  ActorID : GoStr
  Dimension : GoStr
  Value : ℝ
  Weight : ℝ
  Evidence : GoStr
  Timestamp : Int
  TxID : GoStr

structure Stake where
  ActorID : GoStr
  Balance : ℝ
  Locked : ℝ
  UpdatedAt : Int

structure Dispute where
  DisputeID : GoStr
  RatingID : GoStr
  InitiatorID : GoStr
  RaterID : GoStr
  ActorID : GoStr
  Dimension : GoStr
  Reason : GoStr
  Status : GoStr
  ArbitratorID : GoStr
  ArbitratorNotes : GoStr
  CreatedAt : Int
  ResolvedAt : Int

/-- The `RATER_ACTOR:…` pair record written by `SubmitRating`. -/
structure RaterActorRec where
  raterId : GoStr
  actorId : GoStr
  dimension : GoStr
  ratingId : GoStr
  timestamp : Int

/-- A typed ledger value (the Go code stores JSON blobs; keys are
type-homogeneous, so a typed sum is a faithful view). -/
inductive Val where
  | config (c : SystemConfig)
  | rep (r : Reputation)
  | rating (r : Rating)
  | stake (s : Stake)
  | dispute (d : Dispute)
  | raterActor (r : RaterActorRec)
  | roleList (l : List GoStr)

/-- Ledger state: newest-first association list (a `PutState` prepends,
`GetState` takes the first match, so later writes shadow earlier ones). -/
abbrev LS := List (GoStr × Val)

/-- `GetState`. -/
def lget : LS → GoStr → Option Val
  | [], _ => none
  | (k, v) :: rest, key => if k = key then some v else lget rest key

/-- `PutState`. -/
def lput (σ : LS) (k : GoStr) (v : Val) : LS := (k, v) :: σ

/-- An authenticated caller: raw credential string plus the two MSP
attributes the contract consults. -/
structure Caller where
  id : GoStr
  adminAttr : Bool
  arbitratorAttr : Bool

/-- Error kinds returned by the contract entry points. -/
inductive Err where
  | invalidValue
  | invalidTimestamp
  | selfRating
  | invalidDimension
  | insufficientStake
  | noMetaDimension
  | failedWeight (e : Err)
  | failedUpdateRep (e : Err)
  | ratingNotFound
  | onlyRatedActor
  | insufficientStakeDispute
  | invalidVerdict
  | unauthorizedArbitrator
  | alreadyResolved
  | failedMetaUpdate (e : Err)
  | failedReverse (e : Err)
  | failedSlash (e : Err)
  | disputeNotFound
  | unauthorizedAdmin
  | invalidConfig
  | typeMismatch
  deriving DecidableEq

/-! ## Keys and fixed strings -/

def configKey : GoStr := strToGo ("SYSTEM_CONFIG")
def adminListKey : GoStr := strToGo ("ADMIN_LIST")
def arbitratorListKey : GoStr := strToGo ("ARBITRATOR_LIST")
def repTag : GoStr := strToGo ("REPUTATION:")
def stakeTag : GoStr := strToGo ("STAKE:")
def raterActorTag : GoStr := strToGo ("RATER_ACTOR:")
def pendingStr : GoStr := strToGo ("pending")
def upheldStr : GoStr := strToGo ("upheld")
def overturnedStr : GoStr := strToGo ("overturned")

/-- `fmt.Sprintf("REPUTATION:%s:%s", actorID, dimension)`. -/
def repKey (actorID dimension : GoStr) : GoStr := repTag ++ actorID ++ colonStr ++ dimension

/-- `fmt.Sprintf("STAKE:%s", actorID)`. -/
def stakeKey (actorID : GoStr) : GoStr := stakeTag ++ actorID

/-- `fmt.Sprintf("RATER_ACTOR:%s:%s:%s", rater, actor, dimension)`. -/
def raterActorKey (raterID actorID dimension : GoStr) : GoStr :=
  raterActorTag ++ raterID ++ colonStr ++ actorID ++ colonStr ++ dimension

/-- Membership in a modelled Go `map[string]bool` dimension set. -/
def elemStr : List GoStr → GoStr → Bool
  | [], _ => false
  | d :: rest, x => d == x || elemStr rest x

/-- Lookup in a modelled Go `map[string]string`. -/
def assocStr : List (GoStr × GoStr) → GoStr → Option GoStr
  | [], _ => none
  | (k, v) :: rest, x => if k = x then some v else assocStr rest x

/-! ## Configuration (main.go 1246-1299) -/

/-- The hard-coded default configuration written on auto-initialization. -/
def defaultConfig (now : Int) : SystemConfig where
  MinStakeRequired := 10000
  DisputeCost := 100
  SlashPercentage := 0.1
  DecayRate := 0.98
  DecayPeriod := 86400
  InitialAlpha := 2
  InitialBeta := 2
  MinRaterWeight := 0.1
  MaxRaterWeight := 5
  ValidDimensions := [qualityS, strToGo ("delivery"),
    strToGo ("compliance"), strToGo ("warranty")]
  MetaDimensions := [(qualityS, metaQualityS),
    (strToGo ("delivery"), strToGo ("rating_delivery")),
    (strToGo ("compliance"), strToGo ("rating_compliance")),
    (strToGo ("warranty"), strToGo ("rating_warranty"))]
  Version := 1
  LastUpdated := now

/-- `getConfig`: read the snapshot `σr`; when absent, write the defaults by
appending a write to `σw` and return the defaults. -/
def getConfigInv (σr σw : LS) (now : Int) : Except Err (SystemConfig × LS) :=
  match lget σr configKey with
  | some (.config c) => .ok (c, σw)
  | some _ => .error .typeMismatch
  | none => .ok (defaultConfig now, lput σw configKey (.config (defaultConfig now)))

/-- `validateConfig` (main.go 1301-1328): the code's chain of bound
checks, `true` when every check passes. -/
def validateConfig (c : SystemConfig) : Bool :=
  if c.MinStakeRequired < 0 then false
  else if c.DisputeCost < 0 then false
  else if c.SlashPercentage < 0 ∨ 1 < c.SlashPercentage then false
  else if c.DecayRate < 0 ∨ 1 < c.DecayRate then false
  else if c.DecayPeriod ≤ 0 then false
  else if c.InitialAlpha ≤ 0 ∨ c.InitialBeta ≤ 0 then false
  else if c.MinRaterWeight < 0 ∨ c.MaxRaterWeight < c.MinRaterWeight then false
  else if c.ValidDimensions = [] then false
  else true

/-- `isAdmin` (main.go 1479-1498): MSP attribute, else the stored admin
list applied to the normalized caller identity. -/
def isAdmin (σ : LS) (caller : Caller) : Bool :=
  caller.adminAttr ||
    match lget σ adminListKey with
    | some (.roleList l) => l.contains (normalizeIdentity caller.id)
    | _ => false

/-- `isArbitrator` (main.go 1501-1520). -/
def isArbitrator (σ : LS) (caller : Caller) : Bool :=
  caller.arbitratorAttr ||
    match lget σ arbitratorListKey with
    | some (.roleList l) => l.contains (normalizeIdentity caller.id)
    | _ => false

/-- `UpdateConfig` (main.go 177-212); the JSON argument is taken already
parsed into a `SystemConfig`. -/
def updateConfigInv (σ : LS) (caller : Caller) (newConfig : SystemConfig) (now : Int) :
    Except Err LS :=
  if !isAdmin σ caller then .error .unauthorizedAdmin
  else if !validateConfig newConfig then .error .invalidConfig
  else .ok (lput σ configKey (.config { newConfig with
    Version := newConfig.Version + 1, LastUpdated := now }))

/-! ## Reputation and stake records (main.go 1331-1390) -/

/-- `getOrInitReputation`: pure snapshot read; a missing record yields the
configured prior without persisting it. -/
def getOrInitReputation (σ : LS) (actorID dimension : GoStr) (config : SystemConfig)
    (now : Int) : Except Err Reputation :=
  match lget σ (repKey actorID dimension) with
  | some (.rep r) => .ok r
  | some _ => .error .typeMismatch
  | none => .ok
      { ActorID := actorID, Dimension := dimension,
        Alpha := config.InitialAlpha, Beta := config.InitialBeta,
        TotalEvents := 0, LastTs := now }

/-- `getOrInitStake`: pure snapshot read; a missing record is all-zero. -/
def getOrInitStake (σ : LS) (actorID : GoStr) (now : Int) : Except Err Stake :=
  match lget σ (stakeKey actorID) with
  | some (.stake s) => .ok s
  | some _ => .error .typeMismatch
  | none => .ok { ActorID := actorID, Balance := 0, Locked := 0, UpdatedAt := now }

/-! ## Decay, Wilson interval (main.go 1393-1462) -/

/-- `applyDynamicDecay`: variance-adaptive exponential decay of the Beta
parameters toward the configured prior, as a pure projection. -/
def applyDynamicDecay (rep : Reputation) (config : SystemConfig) (now : Int) : Reputation :=
  let timeDelta : ℝ := ((now - rep.LastTs : Int) : ℝ)
  let alpha := rep.Alpha
  let beta := rep.Beta
  let sum := alpha + beta
  let variance := alpha * beta / (sum * sum * (sum + 1))
  let maxVariance : ℝ := 0.083
  let normalizedVariance := min (variance / maxVariance) 1
  let adaptiveDecayRate := config.DecayRate + (1 - config.DecayRate) * normalizedVariance * 0.5
  let decayFactor := adaptiveDecayRate ^ (timeDelta / config.DecayPeriod)
  let effectiveAlpha := alpha * decayFactor
  let effectiveBeta := beta * decayFactor
  let effectiveAlpha := if effectiveAlpha < config.InitialAlpha then config.InitialAlpha
    else effectiveAlpha
  let effectiveBeta := if effectiveBeta < config.InitialBeta then config.InitialBeta
    else effectiveBeta
  { ActorID := rep.ActorID, Dimension := rep.Dimension,
    Alpha := effectiveAlpha, Beta := effectiveBeta,
    TotalEvents := rep.TotalEvents, LastTs := rep.LastTs }

/-- `calculateWilsonCI`: Wilson score interval on `n = α+β`, `p = α/n`,
clamped to `[0,1]`. -/
def calculateWilsonCI (alpha beta confidence : ℝ) : ℝ × ℝ :=
  let n := alpha + beta
  if n = 0 then (0, 0)
  else
    let p := alpha / n
    let z : ℝ := if confidence = 0.99 then 2.576 else 1.96
    let denominator := 1 + z * z / n
    let centre := (p + z * z / (2 * n)) / denominator
    let margin := z * Real.sqrt (p * (1 - p) / n + z * z / (4 * n * n)) / denominator
    let lower := centre - margin
    let upper := centre + margin
    (if lower < 0 then 0 else lower, if 1 < upper then 1 else upper)

/-! ## Rating pipeline (main.go 376-619) -/

/-- The weight clamp of `calculateRaterWeight` (main.go 610-616). -/
def clampWeight (config : SystemConfig) (weight : ℝ) : ℝ :=
  let weight := if weight < config.MinRaterWeight then config.MinRaterWeight else weight
  if config.MaxRaterWeight < weight then config.MaxRaterWeight else weight

/-- `calculateRaterWeight` (main.go 575-619): score the rater's own
meta-reputation (with decay), scale by the confidence factor
`1 + sqrt(n/(n+10))`, clamp to the configured weight band. -/
def calculateRaterWeightInv (σr σw : LS) (raterID baseDimension : GoStr) (now : Int) :
    Except Err (ℝ × LS) :=
  match getConfigInv σr σw now with
  | .error e => .error e
  | .ok (config, σ1) =>
    match assocStr config.MetaDimensions baseDimension with
    | none => .error .noMetaDimension
    | some metaDimension =>
      match getOrInitReputation σr raterID metaDimension config now with
      | .error e => .error e
      | .ok rep =>
        let effectiveRep := applyDynamicDecay rep config now
        let metaScore := effectiveRep.Alpha / (effectiveRep.Alpha + effectiveRep.Beta)
        let totalEvents := effectiveRep.Alpha + effectiveRep.Beta
        let confidenceFactor := 1 + Real.sqrt (totalEvents / (totalEvents + 10))
        let weight := metaScore * confidenceFactor
        .ok (clampWeight config weight, σ1)

/-- `updateReputation` (main.go 523-572): load the target's reputation,
accumulate the weighted observation (no decay on the write path),
increment the event count, stamp `LastTs`, persist. -/
def updateReputationInv (σr σw : LS) (rating : Rating) (now : Int) : Except Err LS :=
  match getConfigInv σr σw now with
  | .error e => .error e
  | .ok (config, σ1) =>
    match getOrInitReputation σr rating.ActorID rating.Dimension config now with
    | .error e => .error e
    | .ok rep =>
      let rep := if 0.5 ≤ rating.Value
        then { rep with Alpha := rep.Alpha + rating.Weight * rating.Value }
        else { rep with Beta := rep.Beta + rating.Weight * (1 - rating.Value) }
      let rep := { rep with TotalEvents := rep.TotalEvents + 1, LastTs := now }
      .ok (lput σ1 (repKey rating.ActorID rating.Dimension) (.rep rep))

/-- `SubmitRating` (main.go 376-520).  Validation order is exactly the
code's: value range, self-rating on normalized identities, dimension
membership, stake floor.  The rating record is stored twice and
`updateReputation` is invoked twice (the first result is discarded), as in
the source; both invocations read the same committed snapshot. -/
def submitRatingInv (σ : LS) (caller : Caller) (txID : GoStr) (actorID dimension : GoStr)
    (value : ℝ) (evidence : GoStr) (timestamp : Int) (now : Int) :
    Except Err (GoStr × LS) :=
  if value < 0 ∨ 1 < value then .error .invalidValue
  else
    let raterID := caller.id
    let normalizedRaterID := normalizeIdentity raterID
    let normalizedActorID := normalizeIdentity actorID
    if normalizedRaterID = normalizedActorID then .error .selfRating
    else
      match getConfigInv σ σ now with
      | .error e => .error e
      | .ok (config, σ1) =>
        if !elemStr config.ValidDimensions dimension then .error .invalidDimension
        else
          match getOrInitStake σ normalizedRaterID now with
          | .error e => .error e
          | .ok raterStake =>
            if raterStake.Balance < config.MinStakeRequired then .error .insufficientStake
            else
              match calculateRaterWeightInv σ σ1 normalizedRaterID dimension now with
              | .error e => .error (.failedWeight e)
              | .ok (weight, σ2) =>
                let ratingID := generateRatingID normalizedRaterID normalizedActorID
                  dimension timestamp
                let rating : Rating :=
                  { RatingID := ratingID, RaterID := normalizedRaterID,
                    ActorID := normalizedActorID, Dimension := dimension,
                    Value := value, Weight := weight, Evidence := evidence,
                    Timestamp := timestamp, TxID := txID }
                let σ3 := lput σ2 ratingID (.rating rating)
                let σ4 := lput σ3 ratingID (.rating rating)
                let pair : RaterActorRec :=
                  { raterId := normalizedRaterID, actorId := normalizedActorID,
                    dimension := dimension, ratingId := ratingID, timestamp := timestamp }
                let σ5 := lput σ4 (raterActorKey normalizedRaterID normalizedActorID dimension)
                  (.raterActor pair)
                let σ6 := match updateReputationInv σ σ5 rating now with
                  | .ok s => s
                  | .error _ => σ5
                match updateReputationInv σ σ6 rating now with
                | .error e => .error (.failedUpdateRep e)
                | .ok σ7 => .ok (ratingID, σ7)

/-! ## Dispute state machine (main.go 626-943) -/

/-- `InitiateDispute` (main.go 626-713): only the rated actor may dispute;
the dispute cost is moved from available to locked at the cost configured
now; a pending `Dispute` record is created. -/
def initiateDisputeInv (σ : LS) (caller : Caller) (ratingID reason : GoStr) (now : Int) :
    Except Err (GoStr × LS) :=
  let normalizedInitiatorID := normalizeIdentity caller.id
  match lget σ ratingID with
  | none => .error .ratingNotFound
  | some (.rating rating) =>
    if normalizedInitiatorID ≠ rating.ActorID then .error .onlyRatedActor
    else
      match getConfigInv σ σ now with
      | .error e => .error e
      | .ok (config, σ1) =>
        match getOrInitStake σ normalizedInitiatorID now with
        | .error e => .error e
        | .ok stake =>
          if stake.Balance < config.DisputeCost then .error .insufficientStakeDispute
          else
            let stake' :=
              { stake with
                Balance := stake.Balance - config.DisputeCost,
                Locked := stake.Locked + config.DisputeCost, UpdatedAt := now }
            let σ2 := lput σ1 (stakeKey normalizedInitiatorID) (.stake stake')
            let disputeID := generateDisputeID ratingID normalizedInitiatorID now
            let dispute : Dispute :=
              { DisputeID := disputeID, RatingID := ratingID,
                InitiatorID := normalizedInitiatorID, RaterID := rating.RaterID,
                ActorID := rating.ActorID, Dimension := rating.Dimension,
                Reason := reason, Status := pendingStr, ArbitratorID := [],
                ArbitratorNotes := [], CreatedAt := now, ResolvedAt := 0 }
            .ok (disputeID, lput σ2 disputeID (.dispute dispute))
  | some _ => .error .typeMismatch

/-- `updateMetaReputation` (main.go 809-850): bump the rater's
meta-dimension Alpha (correct) or Beta (incorrect) by one. -/
def updateMetaReputationInv (σr σw : LS) (raterID baseDimension : GoStr) (wasCorrect : Bool)
    (now : Int) : Except Err LS :=
  match getConfigInv σr σw now with
  | .error e => .error e
  | .ok (config, σ1) =>
    match assocStr config.MetaDimensions baseDimension with
    | none => .error .noMetaDimension
    | some metaDimension =>
      match getOrInitReputation σr raterID metaDimension config now with
      | .error e => .error e
      | .ok rep =>
        let rep := if wasCorrect then { rep with Alpha := rep.Alpha + 1 }
          else { rep with Beta := rep.Beta + 1 }
        let rep := { rep with LastTs := now, TotalEvents := rep.TotalEvents + 1 }
        .ok (lput σ1 (repKey raterID metaDimension) (.rep rep))

/-- `reverseRating` (main.go 853-901): subtract the rating's weighted
contribution, clamp at the configured prior, decrement the event count. -/
def reverseRatingInv (σr σw : LS) (ratingID : GoStr) (now : Int) : Except Err LS :=
  match lget σr ratingID with
  | none => .error .ratingNotFound
  | some (.rating rating) =>
    match getConfigInv σr σw now with
    | .error e => .error e
    | .ok (config, σ1) =>
      match getOrInitReputation σr rating.ActorID rating.Dimension config now with
      | .error e => .error e
      | .ok rep =>
        let rep := if 0.5 ≤ rating.Value
          then { rep with Alpha := rep.Alpha - rating.Weight * rating.Value }
          else { rep with Beta := rep.Beta - rating.Weight * (1 - rating.Value) }
        let rep := if rep.Alpha < config.InitialAlpha
          then { rep with Alpha := config.InitialAlpha } else rep
        let rep := if rep.Beta < config.InitialBeta
          then { rep with Beta := config.InitialBeta } else rep
        let rep := { rep with TotalEvents := rep.TotalEvents - 1 }
        .ok (lput σ1 (repKey rating.ActorID rating.Dimension) (.rep rep))
  | some _ => .error .typeMismatch

/-- `slashStake` (main.go 904-943): reduce the rater's available balance
by the configured fraction. -/
def slashStakeInv (σr σw : LS) (raterID : GoStr) (now : Int) : Except Err LS :=
  match getConfigInv σr σw now with
  | .error e => .error e
  | .ok (config, σ1) =>
    match getOrInitStake σr raterID now with
    | .error e => .error e
    | .ok stake =>
      let slashAmount := stake.Balance * config.SlashPercentage
      let stake' := { stake with Balance := stake.Balance - slashAmount, UpdatedAt := now }
      .ok (lput σ1 (stakeKey raterID) (.stake stake'))

/-- `ResolveDispute` (main.go 716-806): verdict validity, arbitrator role
and pending status are checked, in that order, before any write; then the
rater's meta-reputation is updated, an overturned rating is reversed and
its rater slashed, and the dispute cost (at its currently configured
value) is returned from the initiator's locked balance. -/
def resolveDisputeInv (σ : LS) (caller : Caller) (disputeID verdict notes : GoStr)
    (now : Int) : Except Err LS :=
  if verdict ≠ upheldStr ∧ verdict ≠ overturnedStr then .error .invalidVerdict
  else if !isArbitrator σ caller then .error .unauthorizedArbitrator
  else
    match lget σ disputeID with
    | none => .error .disputeNotFound
    | some (.dispute dispute) =>
      if dispute.Status ≠ pendingStr then .error .alreadyResolved
      else
        let normalizedArbitratorID := normalizeIdentity caller.id
        let dispute' :=
          { dispute with
            Status := verdict,
            ArbitratorID := normalizedArbitratorID, ArbitratorNotes := notes,
            ResolvedAt := now }
        let raterWasCorrect := verdict = upheldStr
        match updateMetaReputationInv σ σ dispute.RaterID dispute.Dimension
          raterWasCorrect now with
        | .error e => .error (.failedMetaUpdate e)
        | .ok σ1 =>
          let afterReversal : Except Err LS :=
            if verdict = overturnedStr then
              match reverseRatingInv σ σ1 dispute.RatingID now with
              | .error e => .error (.failedReverse e)
              | .ok σ2 =>
                match slashStakeInv σ σ2 dispute.RaterID now with
                | .error e => .error (.failedSlash e)
                | .ok σ3 => .ok σ3
            else .ok σ1
          match afterReversal with
          | .error e => .error e
          | .ok σ4 =>
            match getConfigInv σ σ4 now with
            | .error e => .error e
            | .ok (config, σ5) =>
              match getOrInitStake σ dispute.InitiatorID now with
              | .error e => .error e
              | .ok stake =>
                let stake' :=
                  { stake with
                    Locked := stake.Locked - config.DisputeCost,
                    Balance := stake.Balance + config.DisputeCost, UpdatedAt := now }
                let σ6 := lput σ5 (stakeKey dispute.InitiatorID) (.stake stake')
                .ok (lput σ6 disputeID (.dispute dispute'))
    | some _ => .error .typeMismatch

/-! ## Spec-side reference for the update rule, and result projections -/

/-- The spec's description of `Update` (spec §4.4): load, apply decay
relative to `now`, then accumulate the weighted observation, increment the
count, stamp `LastTs`, persist.  Stated only to compare with the code's
`updateReputationInv`, which does not decay on the write path. -/
def updateReputationSpec (σr σw : LS) (rating : Rating) (now : Int) : Except Err LS :=
  match getConfigInv σr σw now with
  | .error e => .error e
  | .ok (config, σ1) =>
    match getOrInitReputation σr rating.ActorID rating.Dimension config now with
    | .error e => .error e
    | .ok rep0 =>
      let rep := applyDynamicDecay rep0 config now
      let rep := if 0.5 ≤ rating.Value
        then { rep with Alpha := rep.Alpha + rating.Weight * rating.Value }
        else { rep with Beta := rep.Beta + rating.Weight * (1 - rating.Value) }
      let rep := { rep with TotalEvents := rep.TotalEvents + 1, LastTs := now }
      .ok (lput σ1 (repKey rating.ActorID rating.Dimension) (.rep rep))

/-- Committed state of a possibly-failed invocation: Fabric discards the
write set of a failed transaction. -/
def runState (r : Except Err (GoStr × LS)) (σ : LS) : LS :=
  match r with
  | .ok (_, s) => s
  | .error _ => σ

/-- Committed state for invocations that return no value. -/
def runStateU (r : Except Err LS) (σ : LS) : LS :=
  match r with
  | .ok s => s
  | .error _ => σ

/-- Returned identifier of a successful invocation (empty on failure). -/
def runId (r : Except Err (GoStr × LS)) : GoStr :=
  match r with
  | .ok (i, _) => i
  | .error _ => []

/-- The stored Alpha for an actor and dimension (0 when absent). -/
def repAlphaIn (σ : LS) (actorID dimension : GoStr) : ℝ :=
  match lget σ (repKey actorID dimension) with
  | some (.rep r) => r.Alpha
  | _ => 0

/-- The stored Beta for an actor and dimension (0 when absent). -/
def repBetaIn (σ : LS) (actorID dimension : GoStr) : ℝ :=
  match lget σ (repKey actorID dimension) with
  | some (.rep r) => r.Beta
  | _ => 0

/-- The stored event count for an actor and dimension (0 when absent). -/
def repEventsIn (σ : LS) (actorID dimension : GoStr) : Int :=
  match lget σ (repKey actorID dimension) with
  | some (.rep r) => r.TotalEvents
  | _ => 0

/-- The stored available balance of an actor (0 when absent). -/
def stakeBalIn (σ : LS) (actorID : GoStr) : ℝ :=
  match lget σ (stakeKey actorID) with
  | some (.stake s) => s.Balance
  | _ => 0

/-- The stored locked balance of an actor (0 when absent). -/
def stakeLockedIn (σ : LS) (actorID : GoStr) : ℝ :=
  match lget σ (stakeKey actorID) with
  | some (.stake s) => s.Locked
  | _ => 0

/-- The weight returned by a successful weight calculation (0 on failure). -/
def resWeight (r : Except Err (ℝ × LS)) : ℝ :=
  match r with
  | .ok (w, _) => w
  | .error _ => 0

end

/-! ## Concrete identities and dimensions used in the scenarios -/

theorem normalize_alice : normalizeIdentity aliceS = aliceS := by decide
theorem normalize_bob : normalizeIdentity bobS = bobS := by decide
theorem normalize_carol : normalizeIdentity carolS = carolS := by decide
theorem bob_ne_alice_norm : ¬(bobS = aliceS) := by decide

/-! ## Key disequalities.  Generated identifiers start with `RATING:` or
`DISPUTE:`, so they can never collide with the other record keys, whatever
the hash digits are; the remaining pairs are concrete. -/

theorem ratingTag_ne_config (x : GoStr) : ¬(ratingTag ++ x = configKey) := by
  intro h
  have h0 := congrArg (fun l => l.headD 0) h
  simp [ratingTag, configKey, strToGo] at h0

theorem ratingTag_ne_rep (x a d : GoStr) : ¬(ratingTag ++ x = repKey a d) := by
  intro h
  have h0 := congrArg (fun l => (l.drop 1).headD 0) h
  simp [ratingTag, repKey, repTag, strToGo] at h0

theorem ratingTag_ne_stake (x a : GoStr) : ¬(ratingTag ++ x = stakeKey a) := by
  intro h
  have h0 := congrArg (fun l => l.headD 0) h
  simp [ratingTag, stakeKey, stakeTag, strToGo] at h0

theorem ratingTag_ne_raterActor (x r a d : GoStr) :
    ¬(ratingTag ++ x = raterActorKey r a d) := by
  intro h
  have h0 := congrArg (fun l => (l.drop 3).headD 0) h
  simp [ratingTag, raterActorKey, raterActorTag, strToGo] at h0

theorem raterActor_ne_config (r a d : GoStr) : ¬(raterActorKey r a d = configKey) := by
  intro h
  have h0 := congrArg (fun l => l.headD 0) h
  simp [raterActorKey, raterActorTag, configKey, strToGo] at h0

theorem raterActor_ne_rep (r a d a2 d2 : GoStr) :
    ¬(raterActorKey r a d = repKey a2 d2) := by
  intro h
  have h0 := congrArg (fun l => (l.drop 3).headD 0) h
  simp [raterActorKey, raterActorTag, repKey, repTag, strToGo] at h0

theorem raterActor_ne_stake (r a d a2 : GoStr) : ¬(raterActorKey r a d = stakeKey a2) := by
  intro h
  have h0 := congrArg (fun l => l.headD 0) h
  simp [raterActorKey, raterActorTag, stakeKey, stakeTag, strToGo] at h0

theorem disputeTag_ne_config (x : GoStr) : ¬(disputeTag ++ x = configKey) := by
  intro h
  have h0 := congrArg (fun l => l.headD 0) h
  simp [disputeTag, configKey, strToGo] at h0

theorem disputeTag_ne_stake (x a : GoStr) : ¬(disputeTag ++ x = stakeKey a) := by
  intro h
  have h0 := congrArg (fun l => l.headD 0) h
  simp [disputeTag, stakeKey, stakeTag, strToGo] at h0

theorem disputeTag_ne_rep (x a d : GoStr) : ¬(disputeTag ++ x = repKey a d) := by
  intro h
  have h0 := congrArg (fun l => l.headD 0) h
  simp [disputeTag, repKey, repTag, strToGo] at h0

theorem disputeTag_ne_rating (x y : GoStr) : ¬(disputeTag ++ x = ratingTag ++ y) := by
  intro h
  have h0 := congrArg (fun l => l.headD 0) h
  simp [disputeTag, ratingTag, strToGo] at h0

theorem config_ne_disputeTag (x : GoStr) : ¬(configKey = disputeTag ++ x) := by
  intro h
  have h0 := congrArg (fun l => l.headD 0) h
  simp [disputeTag, configKey, strToGo] at h0

noncomputable section

/-! ## Claim C2 — Scenario A of the spec -/

/-- A ledger holding only the default configuration. -/
def c2Sigma : LS := [(configKey, .config (defaultConfig 0))]

/-- A rating of value 1.0 at weight 1.0 for a fresh actor. -/
def c2Rating : Rating where
  RatingID := strToGo ("r1")
  RaterID := bobS
  ActorID := aliceS
  Dimension := qualityS
  Value := 1
  Weight := 1
  Evidence := []
  Timestamp := 1000
  TxID := []

/-- C2: an actor whose reputation stands at the prior Alpha=2, Beta=2
receives one rating of value 1.0 applied at weight 1.0; the stored
reputation becomes Alpha=3, Beta=2, hence Score = 3/(3+2) = 0.6. -/
theorem submitRating_scenarioA :
    repAlphaIn (runStateU (updateReputationInv c2Sigma c2Sigma c2Rating 1000) c2Sigma)
        aliceS qualityS = 3 ∧
    repBetaIn (runStateU (updateReputationInv c2Sigma c2Sigma c2Rating 1000) c2Sigma)
        aliceS qualityS = 2 ∧
    repAlphaIn (runStateU (updateReputationInv c2Sigma c2Sigma c2Rating 1000) c2Sigma)
          aliceS qualityS /
        (repAlphaIn (runStateU (updateReputationInv c2Sigma c2Sigma c2Rating 1000) c2Sigma)
            aliceS qualityS +
          repBetaIn (runStateU (updateReputationInv c2Sigma c2Sigma c2Rating 1000) c2Sigma)
            aliceS qualityS) = 0.6 := by
  have hconf : lget c2Sigma configKey = some (.config (defaultConfig 0)) := by
    simp [c2Sigma, lget]
  have hrep : lget c2Sigma (repKey aliceS qualityS) = none := by
    have : ¬(configKey = repKey aliceS qualityS) := by decide
    simp [c2Sigma, lget, this]
  simp only [updateReputationInv, getConfigInv, getOrInitReputation, hconf, hrep, c2Rating,
    runStateU, repAlphaIn, repBetaIn, lput, lget, defaultConfig]
  norm_num

/-! ## Claim C7 — decay floor -/

/-- C7: for every stored reputation record, configuration and reading
time, the decay projection returns Alpha at least the configured initial
Alpha and Beta at least the configured initial Beta; the projection is a
pure function of the stored record, which it does not modify. -/
theorem applyDynamicDecay_floor (rep : Reputation) (config : SystemConfig) (now : Int) :
    config.InitialAlpha ≤ (applyDynamicDecay rep config now).Alpha ∧
    config.InitialBeta ≤ (applyDynamicDecay rep config now).Beta := by
  simp only [applyDynamicDecay]
  constructor
  · split
    · exact le_rfl
    · next h => exact le_of_not_lt h
  · split
    · exact le_rfl
    · next h => exact le_of_not_lt h

/-! ## Claim C8 — Wilson interval brackets the score -/

set_option maxHeartbeats 1000000 in
/-- C8: for Alpha, Beta > 0 the Wilson interval satisfies
`0 ≤ lower ≤ Score ≤ upper ≤ 1` with `Score = Alpha/(Alpha+Beta)`. -/
theorem wilsonCI_brackets_score (alpha beta confidence : ℝ)
    (ha : 0 < alpha) (hb : 0 < beta) :
    0 ≤ (calculateWilsonCI alpha beta confidence).1 ∧
    (calculateWilsonCI alpha beta confidence).1 ≤ alpha / (alpha + beta) ∧
    alpha / (alpha + beta) ≤ (calculateWilsonCI alpha beta confidence).2 ∧
    (calculateWilsonCI alpha beta confidence).2 ≤ 1 := by
  have hn : (0:ℝ) < alpha + beta := by linarith
  have hn0 : alpha + beta ≠ 0 := ne_of_gt hn
  simp only [calculateWilsonCI, if_neg hn0]
  set p := alpha / (alpha + beta) with hp_def
  set z := if confidence = 0.99 then (2.576:ℝ) else 1.96 with hz_def
  have hz : (0:ℝ) < z := by rw [hz_def]; split <;> norm_num
  have hp0 : 0 < p := div_pos ha hn
  have hp1 : p < 1 := (div_lt_one hn).mpr (by linarith)
  have hq : 0 ≤ p * (1 - p) := mul_nonneg hp0.le (by linarith)
  have hE : 0 ≤ p * (1 - p) / (alpha + beta) +
      z * z / (4 * (alpha + beta) * (alpha + beta)) := by positivity
  set m := Real.sqrt (p * (1 - p) / (alpha + beta) +
    z * z / (4 * (alpha + beta) * (alpha + beta))) with hm_def
  have hm0 : 0 ≤ m := Real.sqrt_nonneg _
  have hm2 : m ^ 2 = p * (1 - p) / (alpha + beta) +
      z * z / (4 * (alpha + beta) * (alpha + beta)) := Real.sq_sqrt hE
  have hmn : m ^ 2 * (4 * (alpha + beta) ^ 2) = 4 * (alpha + beta) * (p * (1 - p)) + z ^ 2 := by
    rw [hm2]; field_simp; ring
  have hsq : (z * (1 - 2 * p)) ^ 2 ≤ (2 * (alpha + beta) * m) ^ 2 := by
    nlinarith [mul_nonneg hq (sq_nonneg z), mul_nonneg hq hn.le]
  have hnm0 : 0 ≤ 2 * (alpha + beta) * m := by positivity
  have h5 : z * (1 - 2 * p) ≤ 2 * (alpha + beta) * m := by nlinarith [hsq, hnm0]
  have h6 : z * (2 * p - 1) ≤ 2 * (alpha + beta) * m := by nlinarith [hsq, hnm0]
  have hD : (0:ℝ) < 1 + z * z / (alpha + beta) := by positivity
  have h2n : (0:ℝ) < 2 * (alpha + beta) := by positivity
  have hk1 : (p + z * z / (2 * (alpha + beta))) / (1 + z * z / (alpha + beta)) -
      z * m / (1 + z * z / (alpha + beta)) ≤ p := by
    rw [div_sub_div_same, div_le_iff hD, ← sub_nonneg]
    have expand : p * (1 + z * z / (alpha + beta)) -
        (p + z * z / (2 * (alpha + beta)) - z * m) =
        (2 * p * (z * z) - z * z + 2 * (alpha + beta) * (z * m)) / (2 * (alpha + beta)) := by
      field_simp
      ring
    rw [expand]
    apply div_nonneg _ h2n.le
    nlinarith [mul_le_mul_of_nonneg_left h5 hz.le]
  have hk2 : p ≤ (p + z * z / (2 * (alpha + beta))) / (1 + z * z / (alpha + beta)) +
      z * m / (1 + z * z / (alpha + beta)) := by
    rw [div_add_div_same, le_div_iff hD, ← sub_nonneg]
    have expand2 : p + z * z / (2 * (alpha + beta)) + z * m -
        p * (1 + z * z / (alpha + beta)) =
        (z * z - 2 * p * (z * z) + 2 * (alpha + beta) * (z * m)) / (2 * (alpha + beta)) := by
      field_simp
      ring
    rw [expand2]
    apply div_nonneg _ h2n.le
    nlinarith [mul_le_mul_of_nonneg_left h6 hz.le]
  refine ⟨?_, ?_, ?_, ?_⟩
  · split
    · exact le_rfl
    · next h => exact le_of_not_lt h
  · split
    · exact hp0.le
    · exact hk1
  · split
    · exact hp1.le
    · exact hk2
  · split
    · exact le_rfl
    · next h => exact le_of_not_lt h

/-- C8 witness: the interval at Alpha = Beta = 1 brackets the score 1/2. -/
theorem wilsonCI_brackets_score_witness :
    (0:ℝ) < 1 ∧
    (0 ≤ (calculateWilsonCI 1 1 0.95).1 ∧
      (calculateWilsonCI 1 1 0.95).1 ≤ 1 / (1 + 1) ∧
      (1:ℝ) / (1 + 1) ≤ (calculateWilsonCI 1 1 0.95).2 ∧
      (calculateWilsonCI 1 1 0.95).2 ≤ 1) :=
  ⟨by norm_num, wilsonCI_brackets_score 1 1 0.95 (by norm_num) (by norm_num)⟩

end

/-! ## Claim C9 — identity normalization idempotence -/

theorem lowChar_idem (c : Nat) : lowChar (lowChar c) = lowChar c := by
  unfold lowChar
  split
  · next h => rw [if_neg]; omega
  · rfl

theorem goToLower_idem (s : GoStr) : goToLower (goToLower s) = goToLower s := by
  simp [goToLower, Function.comp, lowChar_idem]

/-- Every return path of `normalizeIdentity` lower-cases its result. -/
theorem normalizeIdentity_isLower (s : GoStr) :
    ∃ u, normalizeIdentity s = goToLower u := by
  unfold normalizeIdentity
  split <;> (dsimp only; repeat' split) <;> exact ⟨_, rfl⟩

/-- C9 counterexample: normalization is not idempotent.  The raw
credential `X509::CN=Bob::ca` (capital `X`) misses the case-sensitive
`x509::` marker on the first pass, so it normalizes to the lower-cased
bundle `x509::cn=bob::ca`, which a second normalization reduces to `bob`. -/
theorem normalizeIdentity_not_idempotent :
    normalizeIdentity (normalizeIdentity (strToGo ("X509::CN=Bob::ca"))) ≠
      normalizeIdentity (strToGo ("X509::CN=Bob::ca")) := by decide

/-- C9 (amended): normalization is idempotent on every credential whose
normalized form neither decodes as base64 nor contains the `x509::`
marker; such a normalized form is already lower-case and is returned
unchanged. -/
theorem normalizeIdentity_idem_of_stable (s : GoStr)
    (h1 : base64Decode (normalizeIdentity s) = none)
    (h2 : goContains (normalizeIdentity s) x509Marker = false) :
    normalizeIdentity (normalizeIdentity s) = normalizeIdentity s := by
  obtain ⟨u, hu⟩ := normalizeIdentity_isLower s
  set t := normalizeIdentity s with ht
  unfold normalizeIdentity
  rw [h1]
  dsimp only
  rw [if_neg (by rw [h2]; exact Bool.false_ne_true)]
  rw [hu]
  exact goToLower_idem u

/-- C9 witness: a plain mixed-case credential normalizes to a stable key. -/
theorem normalizeIdentity_idem_witness :
    base64Decode (normalizeIdentity (strToGo ("Alice"))) = none ∧
    goContains (normalizeIdentity (strToGo ("Alice"))) x509Marker = false ∧
    normalizeIdentity (normalizeIdentity (strToGo ("Alice"))) =
      normalizeIdentity (strToGo ("Alice")) :=
  ⟨by decide, by decide,
    normalizeIdentity_idem_of_stable (strToGo ("Alice")) (by decide) (by decide)⟩

noncomputable section

/-! ## Claim C4 — weight of a rater with no stored meta-reputation -/

/-- The weight `calculateRaterWeight` produces for a rater with no stored
meta-reputation record: the prior's score times the prior's confidence
factor, clamped (derived from main.go 575-619 at a fresh record). -/
def freshRaterWeight (config : SystemConfig) : ℝ :=
  clampWeight config ((config.InitialAlpha / (config.InitialAlpha + config.InitialBeta)) *
    (1 + Real.sqrt ((config.InitialAlpha + config.InitialBeta) /
      (config.InitialAlpha + config.InitialBeta + 10))))

/-- Shared evaluation: for a rater with no stored meta-reputation record,
the weight calculation returns `freshRaterWeight` of the configuration. -/
theorem calcWeight_fresh_aux (σ : LS) (cfg : SystemConfig) (rater baseDim meta : GoStr)
    (now : Int)
    (hc : lget σ configKey = some (.config cfg))
    (hm : assocStr cfg.MetaDimensions baseDim = some meta)
    (hr : lget σ (repKey rater meta) = none) :
    calculateRaterWeightInv σ σ rater baseDim now = .ok (freshRaterWeight cfg, σ) := by
  simp only [calculateRaterWeightInv, getConfigInv, hc, hm, getOrInitReputation, hr,
    applyDynamicDecay, freshRaterWeight]
  norm_num [Real.rpow_zero]

/-- C4 counterexample: with the default configuration, a brand-new rater's
weight for `quality` is `(1/2)·(1+sqrt(2/7)) ≈ 0.767`, not the configured
minimum rater weight `0.1`. -/
theorem raterWeight_fresh_not_min :
    resWeight (calculateRaterWeightInv c2Sigma c2Sigma bobS qualityS 0) ≠
      (defaultConfig 0).MinRaterWeight := by
  have h := calcWeight_fresh_aux c2Sigma (defaultConfig 0) bobS qualityS metaQualityS 0
    rfl (by decide) rfl
  rw [h]
  simp only [resWeight, freshRaterWeight, clampWeight]
  have harg : ((defaultConfig 0).InitialAlpha + (defaultConfig 0).InitialBeta) /
      ((defaultConfig 0).InitialAlpha + (defaultConfig 0).InitialBeta + 10) = (2:ℝ) / 7 := by
    simp only [defaultConfig]
    norm_num
  have hscore : (defaultConfig 0).InitialAlpha /
      ((defaultConfig 0).InitialAlpha + (defaultConfig 0).InitialBeta) = (1:ℝ) / 2 := by
    simp only [defaultConfig]
    norm_num
  have hMin : (defaultConfig 0).MinRaterWeight = (0.1:ℝ) := rfl
  have hMax : (defaultConfig 0).MaxRaterWeight = (5:ℝ) := rfl
  rw [harg, hscore, hMin, hMax]
  have hs0 : 0 ≤ Real.sqrt ((2:ℝ) / 7) := Real.sqrt_nonneg _
  have hs1 : Real.sqrt ((2:ℝ) / 7) ≤ 1 := by
    rw [show (1:ℝ) = Real.sqrt 1 from (Real.sqrt_one).symm]
    exact Real.sqrt_le_sqrt (by norm_num)
  by_cases h1 : (1:ℝ) / 2 * (1 + Real.sqrt ((2:ℝ) / 7)) < 0.1
  · exact absurd h1 (by nlinarith)
  · rw [if_neg h1]
    by_cases h2 : (5:ℝ) < 1 / 2 * (1 + Real.sqrt ((2:ℝ) / 7))
    · exact absurd h2 (by nlinarith)
    · rw [if_neg h2]
      intro heq
      nlinarith

/-- C4 (amended): a rater with no stored meta-reputation does not get the
configured minimum weight but the fresh-prior weight
`clamp(score₀ · (1 + sqrt(n₀/(n₀+10))))` with `score₀ = α₀/(α₀+β₀)` and
`n₀ = α₀+β₀` (≈ 0.767 under the default configuration, inside the clamp
band, hence above the minimum). -/
theorem raterWeight_fresh_formula (σ : LS) (cfg : SystemConfig) (rater baseDim meta : GoStr)
    (now : Int)
    (hc : lget σ configKey = some (.config cfg))
    (hm : assocStr cfg.MetaDimensions baseDim = some meta)
    (hr : lget σ (repKey rater meta) = none) :
    calculateRaterWeightInv σ σ rater baseDim now = .ok (freshRaterWeight cfg, σ) :=
  calcWeight_fresh_aux σ cfg rater baseDim meta now hc hm hr

/-- C4 witness: the fresh-rater formula applied at the default
configuration for rater `bob` and dimension `quality`. -/
theorem raterWeight_fresh_formula_witness :
    lget c2Sigma configKey = some (.config (defaultConfig 0)) ∧
    assocStr (defaultConfig 0).MetaDimensions qualityS = some metaQualityS ∧
    lget c2Sigma (repKey bobS metaQualityS) = none ∧
    calculateRaterWeightInv c2Sigma c2Sigma bobS qualityS 0 =
      .ok (freshRaterWeight (defaultConfig 0), c2Sigma) :=
  ⟨rfl, by decide, rfl,
    raterWeight_fresh_formula c2Sigma (defaultConfig 0) bobS qualityS metaQualityS 0
      rfl (by decide) rfl⟩

/-! ## Claim C3 — the write-path update does not apply decay -/

/-- A stored reputation with substantial evidence, last updated at time 0. -/
def c3Rep : Reputation where
  ActorID := aliceS
  Dimension := qualityS
  Alpha := 10
  Beta := 10
  TotalEvents := 5
  LastTs := 0

def c3Sigma : LS := [(configKey, .config (defaultConfig 0)),
  (repKey aliceS qualityS, .rep c3Rep)]

def c3Rating : Rating where
  RatingID := strToGo ("r1")
  RaterID := bobS
  ActorID := aliceS
  Dimension := qualityS
  Value := 1
  Weight := 1
  Evidence := []
  Timestamp := 86400
  TxID := []

/-- C3 (amended): the reputation update accumulates the weighted
observation directly on the stored Alpha/Beta — no decay is applied on
the write path (decay happens only in read paths) — and it increments the
event count and stamps `LastTs` with `now` before persisting. -/
theorem updateReputation_accumulates_without_decay (σ : LS) (cfg : SystemConfig)
    (rep : Reputation) (rating : Rating) (now : Int)
    (hc : lget σ configKey = some (.config cfg))
    (hr : lget σ (repKey rating.ActorID rating.Dimension) = some (.rep rep)) :
    updateReputationInv σ σ rating now = .ok (lput σ (repKey rating.ActorID rating.Dimension)
      (.rep { ActorID := rep.ActorID, Dimension := rep.Dimension,
              Alpha := if 0.5 ≤ rating.Value then rep.Alpha + rating.Weight * rating.Value
                else rep.Alpha,
              Beta := if 0.5 ≤ rating.Value then rep.Beta
                else rep.Beta + rating.Weight * (1 - rating.Value),
              TotalEvents := rep.TotalEvents + 1, LastTs := now })) := by
  simp only [updateReputationInv, getConfigInv, hc, getOrInitReputation, hr]
  split <;> rfl

/-- C3 witness: the stored `(10,10)` reputation receives a value-1,
weight-1 rating one full decay period after its last update, and the
persisted record is `(11,10)` — the stored Alpha plus the weighted value,
with no decay applied. -/
theorem updateReputation_accumulates_witness :
    lget c3Sigma configKey = some (.config (defaultConfig 0)) ∧
    lget c3Sigma (repKey c3Rating.ActorID c3Rating.Dimension) = some (.rep c3Rep) ∧
    updateReputationInv c3Sigma c3Sigma c3Rating 86400 =
      .ok (lput c3Sigma (repKey c3Rating.ActorID c3Rating.Dimension)
        (.rep { ActorID := aliceS, Dimension := qualityS, Alpha := 11, Beta := 10,
                TotalEvents := 6, LastTs := 86400 })) := by
  refine ⟨rfl, rfl, ?_⟩
  have h := updateReputation_accumulates_without_decay c3Sigma (defaultConfig 0) c3Rep
    c3Rating 86400 rfl rfl
  rw [h]
  norm_num [c3Rating, c3Rep]

/-- C3 counterexample: the code's update yields Alpha = 11 on the stored
`(10,10)` record, whereas the spec's decay-first update (modelled by
`updateReputationSpec`) yields `10·r + 1 ≠ 11` after one decay period,
because the adaptive decay factor `r < 1`. -/
theorem updateReputation_decay_divergence :
    repAlphaIn (runStateU (updateReputationInv c3Sigma c3Sigma c3Rating 86400) c3Sigma)
      aliceS qualityS = 11 ∧
    repAlphaIn (runStateU (updateReputationSpec c3Sigma c3Sigma c3Rating 86400) c3Sigma)
      aliceS qualityS ≠ 11 := by
  constructor
  · have hconf : lget c3Sigma configKey = some (.config (defaultConfig 0)) := rfl
    have hrep : lget c3Sigma (repKey aliceS qualityS) = some (.rep c3Rep) := rfl
    simp only [updateReputationInv, getConfigInv, hconf, getOrInitReputation, c3Rating, hrep,
      runStateU, repAlphaIn, lput, lget, c3Rep]
    norm_num
  · have hconf : lget c3Sigma configKey = some (.config (defaultConfig 0)) := rfl
    have hrep : lget c3Sigma (repKey aliceS qualityS) = some (.rep c3Rep) := rfl
    simp only [updateReputationSpec, getConfigInv, hconf, getOrInitReputation, c3Rating, hrep,
      applyDynamicDecay, runStateU, repAlphaIn, lput, lget, c3Rep, defaultConfig]
    norm_num [min_def, Real.rpow_one]

/-! ## Claim C5 — order of the SubmitRating validations -/

def carolCaller : Caller where
  id := carolS
  adminAttr := false
  arbitratorAttr := false

def bobCaller : Caller where
  id := bobS
  adminAttr := false
  arbitratorAttr := false

/-- C5 (amended): `SubmitRating` validates, in this order: value range,
then self-rating on normalized identities, then dimension membership,
then the stake floor; an input violating several checks is rejected with
the error of the earliest violated check in this order. -/
theorem submitRating_validation_order (σ : LS) (caller : Caller)
    (txID actorID dimension evidence : GoStr) (value : ℝ) (timestamp now : Int) :
    (value < 0 ∨ 1 < value →
      submitRatingInv σ caller txID actorID dimension value evidence timestamp now =
        .error .invalidValue) ∧
    (¬(value < 0 ∨ 1 < value) →
      normalizeIdentity caller.id = normalizeIdentity actorID →
      submitRatingInv σ caller txID actorID dimension value evidence timestamp now =
        .error .selfRating) ∧
    (∀ cfg σw, ¬(value < 0 ∨ 1 < value) →
      normalizeIdentity caller.id ≠ normalizeIdentity actorID →
      getConfigInv σ σ now = .ok (cfg, σw) →
      elemStr cfg.ValidDimensions dimension = false →
      submitRatingInv σ caller txID actorID dimension value evidence timestamp now =
        .error .invalidDimension) ∧
    (∀ cfg σw stk, ¬(value < 0 ∨ 1 < value) →
      normalizeIdentity caller.id ≠ normalizeIdentity actorID →
      getConfigInv σ σ now = .ok (cfg, σw) →
      elemStr cfg.ValidDimensions dimension = true →
      getOrInitStake σ (normalizeIdentity caller.id) now = .ok stk →
      stk.Balance < cfg.MinStakeRequired →
      submitRatingInv σ caller txID actorID dimension value evidence timestamp now =
        .error .insufficientStake) := by
  refine ⟨?_, ?_, ?_, ?_⟩
  · intro h
    simp only [submitRatingInv, if_pos h]
  · intro h1 h2
    simp only [submitRatingInv, if_neg h1, if_pos h2]
  · intro cfg σw h1 h2 hcfg hdim
    simp only [submitRatingInv, if_neg h1, if_neg h2, hcfg, hdim, Bool.not_false, if_pos]
  · intro cfg σw stk h1 h2 hcfg hdim hstk hbal
    simp only [submitRatingInv, if_neg h1, if_neg h2, hcfg, hdim, Bool.not_true,
      Bool.false_eq_true, if_false, hstk, if_pos hbal]

/-- C5 counterexample: a call with a valid value that violates the
dimension check, the self-rating check and the stake floor simultaneously
is rejected as `selfRating`, not as `invalidDimension` — so the dimension
check does not precede the self-rating check as the claim orders them. -/
theorem submitRating_order_counterexample :
    submitRatingInv c2Sigma carolCaller [] carolS bogusS (1/2) [] 0 0 = .error .selfRating ∧
    elemStr (defaultConfig 0).ValidDimensions bogusS = false ∧
    stakeBalIn c2Sigma carolS < (defaultConfig 0).MinStakeRequired ∧
    Err.selfRating ≠ Err.invalidDimension := by
  refine ⟨?_, by decide, ?_, by decide⟩
  · simp only [submitRatingInv, carolCaller]
    rw [if_neg (by norm_num)]
    simp
  · have hz : stakeBalIn c2Sigma carolS = 0 := rfl
    rw [hz]
    have : (defaultConfig 0).MinStakeRequired = (10000:ℝ) := rfl
    rw [this]
    norm_num

/-- C5 witness: a rating from `bob` about `alice` in a valid dimension
with no stake fails the stake-floor check, the last of the four. -/
theorem submitRating_validation_order_witness :
    ¬((1:ℝ) / 2 < 0 ∨ 1 < (1:ℝ) / 2) ∧
    normalizeIdentity bobCaller.id ≠ normalizeIdentity aliceS ∧
    getConfigInv c2Sigma c2Sigma 0 = .ok (defaultConfig 0, c2Sigma) ∧
    elemStr (defaultConfig 0).ValidDimensions qualityS = true ∧
    getOrInitStake c2Sigma (normalizeIdentity bobCaller.id) 0 =
      .ok { ActorID := bobS, Balance := 0, Locked := 0, UpdatedAt := 0 } ∧
    (0:ℝ) < (defaultConfig 0).MinStakeRequired ∧
    submitRatingInv c2Sigma bobCaller [] aliceS qualityS (1/2) [] 0 0 =
      .error .insufficientStake :=
  ⟨by norm_num, by decide, rfl, by decide, rfl,
    by rw [show (defaultConfig 0).MinStakeRequired = (10000:ℝ) from rfl]; norm_num,
    (submitRating_validation_order c2Sigma bobCaller [] aliceS qualityS [] (1/2) 0 0).2.2.2
      (defaultConfig 0) c2Sigma { ActorID := bobS, Balance := 0, Locked := 0, UpdatedAt := 0 }
      (by norm_num) (by decide) rfl (by decide) rfl
      (by rw [show (defaultConfig 0).MinStakeRequired = (10000:ℝ) from rfl]; norm_num)⟩

/-! ## Claim C6 — resolving a non-pending dispute -/

def arbCaller : Caller where
  id := strToGo ("arb")
  adminAttr := false
  arbitratorAttr := true

def c6DisputeId : GoStr := strToGo ("DISPUTE:d1")

def c6Dispute : Dispute where
  DisputeID := c6DisputeId
  RatingID := strToGo ("RATING:r1")
  InitiatorID := aliceS
  RaterID := bobS
  ActorID := aliceS
  Dimension := qualityS
  Reason := []
  Status := upheldStr
  ArbitratorID := strToGo ("arb")
  ArbitratorNotes := []
  CreatedAt := 0
  ResolvedAt := 1

def c6Sigma : LS := [(configKey, .config (defaultConfig 0)),
  (c6DisputeId, .dispute c6Dispute)]

/-- C6 (amended): resolving a dispute whose status is not pending always
fails and writes nothing (the failed transaction's write set is
discarded, so every stored record is unchanged); the error is
`alreadyResolved` when the verdict is valid and the caller is an
arbitrator (an invalid verdict or a non-arbitrator caller fails with the
earlier verdict or authorization error instead). -/
theorem resolveDispute_single_shot (σ : LS) (caller : Caller)
    (disputeID verdict notes : GoStr) (now : Int) (d : Dispute)
    (hd : lget σ disputeID = some (.dispute d))
    (hs : d.Status ≠ pendingStr) :
    (∃ e, resolveDisputeInv σ caller disputeID verdict notes now = .error e) ∧
    runStateU (resolveDisputeInv σ caller disputeID verdict notes now) σ = σ ∧
    ((verdict = upheldStr ∨ verdict = overturnedStr) → isArbitrator σ caller = true →
      resolveDisputeInv σ caller disputeID verdict notes now = .error .alreadyResolved) := by
  by_cases hv : verdict ≠ upheldStr ∧ verdict ≠ overturnedStr
  · simp only [resolveDisputeInv, if_pos hv]
    refine ⟨⟨_, rfl⟩, rfl, ?_⟩
    rintro (h | h) _
    · exact absurd h hv.1
    · exact absurd h hv.2
  · by_cases ha : isArbitrator σ caller = true
    · have hres : resolveDisputeInv σ caller disputeID verdict notes now =
          .error .alreadyResolved := by
        simp only [resolveDisputeInv, if_neg hv, ha, Bool.not_true, Bool.false_eq_true,
          if_false, hd, if_pos hs]
      exact ⟨⟨_, hres⟩, by rw [hres]; rfl, fun _ _ => hres⟩
    · have haf : isArbitrator σ caller = false := eq_false_of_ne_true ha
      have hres : resolveDisputeInv σ caller disputeID verdict notes now =
          .error .unauthorizedArbitrator := by
        simp only [resolveDisputeInv, if_neg hv, haf, Bool.not_false]
        rw [if_pos trivial]
      exact ⟨⟨_, hres⟩, by rw [hres]; rfl, fun _ harb => absurd harb ha⟩

/-- C6 counterexample: resolving an already-resolved dispute with an
invalid verdict fails with the verdict error, not `alreadyResolved`, so
the claim's "any verdict and caller" wording does not hold for the error
kind (the call still fails and changes nothing). -/
theorem resolveDispute_single_shot_counterexample :
    resolveDisputeInv c6Sigma arbCaller c6DisputeId (strToGo ("maybe")) [] 2 =
      .error .invalidVerdict ∧
    c6Dispute.Status ≠ pendingStr ∧
    Err.invalidVerdict ≠ Err.alreadyResolved := by
  refine ⟨?_, by decide, by decide⟩
  simp only [resolveDisputeInv]
  rw [if_pos (by constructor <;> decide)]

/-- C6 witness: an arbitrator resolving the already-upheld dispute with a
valid verdict gets `alreadyResolved` and the ledger is unchanged. -/
theorem resolveDispute_single_shot_witness :
    lget c6Sigma c6DisputeId = some (.dispute c6Dispute) ∧
    c6Dispute.Status ≠ pendingStr ∧
    resolveDisputeInv c6Sigma arbCaller c6DisputeId upheldStr [] 2 =
      .error .alreadyResolved ∧
    runStateU (resolveDisputeInv c6Sigma arbCaller c6DisputeId upheldStr [] 2) c6Sigma =
      c6Sigma :=
  ⟨rfl, by decide,
    (resolveDispute_single_shot c6Sigma arbCaller c6DisputeId upheldStr [] 2 c6Dispute
      rfl (by decide)).2.2 (Or.inl rfl) rfl,
    (resolveDispute_single_shot c6Sigma arbCaller c6DisputeId upheldStr [] 2 c6Dispute
      rfl (by decide)).2.1⟩

/-! ## Claim C1 — replaying an identical SubmitRating call -/

/-- Bounds on the default fresh-rater weight, shared by several proofs:
`(1/2)·(1+sqrt(2/7))` lies in `[1/2, 1]`, inside the clamp band. -/
theorem freshWeight_default_bounds :
    (1:ℝ) / 2 ≤ freshRaterWeight (defaultConfig 0) ∧
      freshRaterWeight (defaultConfig 0) ≤ 1 := by
  have harg : ((defaultConfig 0).InitialAlpha + (defaultConfig 0).InitialBeta) /
      ((defaultConfig 0).InitialAlpha + (defaultConfig 0).InitialBeta + 10) = (2:ℝ) / 7 := by
    simp only [defaultConfig]
    norm_num
  have hscore : (defaultConfig 0).InitialAlpha /
      ((defaultConfig 0).InitialAlpha + (defaultConfig 0).InitialBeta) = (1:ℝ) / 2 := by
    simp only [defaultConfig]
    norm_num
  have hMin : (defaultConfig 0).MinRaterWeight = (0.1:ℝ) := rfl
  have hMax : (defaultConfig 0).MaxRaterWeight = (5:ℝ) := rfl
  have hs0 : 0 ≤ Real.sqrt ((2:ℝ) / 7) := Real.sqrt_nonneg _
  have hs1 : Real.sqrt ((2:ℝ) / 7) ≤ 1 := by
    rw [show (1:ℝ) = Real.sqrt 1 from (Real.sqrt_one).symm]
    exact Real.sqrt_le_sqrt (by norm_num)
  simp only [freshRaterWeight, clampWeight, harg, hscore, hMin, hMax]
  have hin : ¬((1:ℝ) / 2 * (1 + Real.sqrt ((2:ℝ) / 7)) < 0.1) := by nlinarith
  have hout : ¬((5:ℝ) < 1 / 2 * (1 + Real.sqrt ((2:ℝ) / 7))) := by nlinarith
  rw [if_neg hin, if_neg hout]
  constructor <;> nlinarith

def c1Sigma : LS := [(configKey, .config (defaultConfig 0)),
  (stakeKey bobS, .stake { ActorID := bobS, Balance := 10000, Locked := 0, UpdatedAt := 0 })]

def c1Run1 : Except Err (GoStr × LS) :=
  submitRatingInv c1Sigma bobCaller (strToGo ("tx1")) aliceS qualityS 1 (strToGo ("e")) 1000 1000

def c1Sigma1 : LS := runState c1Run1 c1Sigma

def c1Run2 : Except Err (GoStr × LS) :=
  submitRatingInv c1Sigma1 bobCaller (strToGo ("tx2")) aliceS qualityS 1 (strToGo ("e")) 1000 1000

def c1Rid : GoStr := generateRatingID bobS aliceS qualityS 1000

def c1Rating1 : Rating where
  RatingID := c1Rid
  RaterID := bobS
  ActorID := aliceS
  Dimension := qualityS
  Value := 1
  Weight := freshRaterWeight (defaultConfig 0)
  Evidence := strToGo ("e")
  Timestamp := 1000
  TxID := strToGo ("tx1")

def c1Rating2 : Rating where
  RatingID := c1Rid
  RaterID := bobS
  ActorID := aliceS
  Dimension := qualityS
  Value := 1
  Weight := freshRaterWeight (defaultConfig 0)
  Evidence := strToGo ("e")
  Timestamp := 1000
  TxID := strToGo ("tx2")

def c1Pair : RaterActorRec where
  raterId := bobS
  actorId := aliceS
  dimension := qualityS
  ratingId := c1Rid
  timestamp := 1000

def c1Rep1 : Reputation where
  ActorID := aliceS
  Dimension := qualityS
  Alpha := 2 + freshRaterWeight (defaultConfig 0) * 1
  Beta := 2
  TotalEvents := 0 + 1
  LastTs := 1000

def c1RepFin : Reputation where
  ActorID := aliceS
  Dimension := qualityS
  Alpha := 2 + freshRaterWeight (defaultConfig 0) * 1 + freshRaterWeight (defaultConfig 0) * 1
  Beta := 2
  TotalEvents := 0 + 1 + 1
  LastTs := 1000

def c1SigmaMid : LS :=
  (repKey aliceS qualityS, .rep c1Rep1) :: (repKey aliceS qualityS, .rep c1Rep1) ::
  (raterActorKey bobS aliceS qualityS, .raterActor c1Pair) ::
  (c1Rid, .rating c1Rating1) :: (c1Rid, .rating c1Rating1) :: c1Sigma

def c1SigmaFin : LS :=
  (repKey aliceS qualityS, .rep c1RepFin) :: (repKey aliceS qualityS, .rep c1RepFin) ::
  (raterActorKey bobS aliceS qualityS, .raterActor c1Pair) ::
  (c1Rid, .rating c1Rating2) :: (c1Rid, .rating c1Rating2) :: c1SigmaMid

/-- C1: replaying the identical `SubmitRating` call returns the same
deterministic rating identifier, but the reputation update is applied
again — the duplicate is not detected (main.go never checks whether the
rating ID already exists), so Alpha accumulates the weighted contribution
twice and the event count reaches 2.  Within one call the contribution is
applied once (the twice-invoked `updateReputation` reads the same
committed snapshot, so the second write repeats the first). -/
theorem submitRating_replay_double_counts :
    runId c1Run1 = runId c1Run2 ∧
    repAlphaIn c1Sigma1 aliceS qualityS = 2 + freshRaterWeight (defaultConfig 0) ∧
    repEventsIn c1Sigma1 aliceS qualityS = 1 ∧
    repAlphaIn (runState c1Run2 c1Sigma1) aliceS qualityS =
      2 + 2 * freshRaterWeight (defaultConfig 0) ∧
    repEventsIn (runState c1Run2 c1Sigma1) aliceS qualityS = 2 ∧
    2 + 2 * freshRaterWeight (defaultConfig 0) ≠ 2 + freshRaterWeight (defaultConfig 0) := by
  have hval : ¬((1:ℝ) < 0 ∨ 1 < (1:ℝ)) := by norm_num
  have hhalf : (0.5:ℝ) ≤ 1 := by norm_num
  have hc1 : lget c1Sigma configKey = some (.config (defaultConfig 0)) := rfl
  have hstk1 : lget c1Sigma (stakeKey bobS) =
      some (.stake { ActorID := bobS, Balance := 10000, Locked := 0, UpdatedAt := 0 }) := rfl
  have hrep1 : lget c1Sigma (repKey aliceS qualityS) = none := rfl
  have hdim : elemStr (defaultConfig 0).ValidDimensions qualityS = true := by decide
  have hw1 : calculateRaterWeightInv c1Sigma c1Sigma bobS qualityS 1000 =
      .ok (freshRaterWeight (defaultConfig 0), c1Sigma) :=
    calcWeight_fresh_aux c1Sigma (defaultConfig 0) bobS qualityS metaQualityS 1000
      rfl (by decide) rfl
  have hupd1 : updateReputationInv c1Sigma
      ((raterActorKey bobS aliceS qualityS, .raterActor c1Pair) ::
        (c1Rid, .rating c1Rating1) :: (c1Rid, .rating c1Rating1) :: c1Sigma)
      c1Rating1 1000 =
      .ok ((repKey aliceS qualityS, .rep c1Rep1) ::
        (raterActorKey bobS aliceS qualityS, .raterActor c1Pair) ::
        (c1Rid, .rating c1Rating1) :: (c1Rid, .rating c1Rating1) :: c1Sigma) := by
    simp only [updateReputationInv, getConfigInv, hc1, getOrInitReputation, hrep1,
      c1Rating1, c1Rep1, lput, if_pos hhalf, defaultConfig]
  have hupd1b : updateReputationInv c1Sigma
      ((repKey aliceS qualityS, .rep c1Rep1) ::
        (raterActorKey bobS aliceS qualityS, .raterActor c1Pair) ::
        (c1Rid, .rating c1Rating1) :: (c1Rid, .rating c1Rating1) :: c1Sigma)
      c1Rating1 1000 = .ok c1SigmaMid := by
    simp only [updateReputationInv, getConfigInv, hc1, getOrInitReputation, hrep1,
      c1Rating1, c1Rep1, c1SigmaMid, lput, if_pos hhalf, defaultConfig]
  have hrun1 : c1Run1 = .ok (c1Rid, c1SigmaMid) := by
    simp only [c1Run1, submitRatingInv, bobCaller, normalize_bob, normalize_alice,
      bob_ne_alice_norm, getConfigInv, hc1, elemStr, beq_self_eq_true, Bool.true_or,
      Bool.not_true, Bool.false_eq_true, if_false, ite_false, ite_true, or_self,
      getOrInitStake, hstk1, hw1, lput,
      (show (defaultConfig 0).ValidDimensions = [qualityS, strToGo ("delivery"),
        strToGo ("compliance"), strToGo ("warranty")] from rfl),
      (show (defaultConfig 0).MinStakeRequired = (10000:ℝ) from rfl),
      (by norm_num : ¬((1:ℝ) < 0)), (by norm_num : ¬((1:ℝ) < 1)),
      (by norm_num : ¬((10000:ℝ) < 10000))]
    rw [show generateRatingID bobS aliceS qualityS 1000 = c1Rid from rfl]
    rw [show ({ RatingID := c1Rid, RaterID := bobS, ActorID := aliceS, Dimension := qualityS, Value := 1, Weight := freshRaterWeight (defaultConfig 0), Evidence := strToGo ("e"), Timestamp := 1000, TxID := strToGo ("tx1") } : Rating) = c1Rating1 from rfl]
    rw [show ({ raterId := bobS, actorId := aliceS, dimension := qualityS, ratingId := c1Rid, timestamp := 1000 } : RaterActorRec) = c1Pair from rfl]
    rw [hupd1]
    rw [hupd1b]
  have hs1 : c1Sigma1 = c1SigmaMid := by rw [c1Sigma1, hrun1]; rfl
  have hc2 : lget c1SigmaMid configKey = some (.config (defaultConfig 0)) := by
    simp only [c1SigmaMid, c1Rid, generateRatingID, c1Sigma, lget, ratingTag_ne_config,
      raterActor_ne_config, eq_self_iff_true, ite_true, ite_false,
      (by decide : ¬(repKey aliceS qualityS = configKey)),
      (by decide : ¬(raterActorKey bobS aliceS qualityS = configKey))]
  have hstk2 : lget c1SigmaMid (stakeKey bobS) =
      some (.stake { ActorID := bobS, Balance := 10000, Locked := 0, UpdatedAt := 0 }) := by
    simp only [c1SigmaMid, c1Rid, generateRatingID, c1Sigma, lget, ratingTag_ne_stake,
      raterActor_ne_stake, eq_self_iff_true, ite_true, ite_false,
      (by decide : ¬(repKey aliceS qualityS = stakeKey bobS)),
      (by decide : ¬(raterActorKey bobS aliceS qualityS = stakeKey bobS)),
      (by decide : ¬(configKey = stakeKey bobS))]
  have hrepA2 : lget c1SigmaMid (repKey aliceS qualityS) = some (.rep c1Rep1) := rfl
  have hrepBM : lget c1SigmaMid (repKey bobS metaQualityS) = none := by
    simp only [c1SigmaMid, c1Rid, generateRatingID, c1Sigma, lget, ratingTag_ne_rep,
      raterActor_ne_rep, eq_self_iff_true, ite_true, ite_false,
      (by decide : ¬(repKey aliceS qualityS = repKey bobS metaQualityS)),
      (by decide : ¬(raterActorKey bobS aliceS qualityS = repKey bobS metaQualityS)),
      (by decide : ¬(configKey = repKey bobS metaQualityS)),
      (by decide : ¬(stakeKey bobS = repKey bobS metaQualityS))]
  have hw2 : calculateRaterWeightInv c1SigmaMid c1SigmaMid bobS qualityS 1000 =
      .ok (freshRaterWeight (defaultConfig 0), c1SigmaMid) :=
    calcWeight_fresh_aux c1SigmaMid (defaultConfig 0) bobS qualityS metaQualityS 1000
      hc2 (by decide) hrepBM
  have hupd2 : updateReputationInv c1SigmaMid
      ((raterActorKey bobS aliceS qualityS, .raterActor c1Pair) ::
        (c1Rid, .rating c1Rating2) :: (c1Rid, .rating c1Rating2) :: c1SigmaMid)
      c1Rating2 1000 =
      .ok ((repKey aliceS qualityS, .rep c1RepFin) ::
        (raterActorKey bobS aliceS qualityS, .raterActor c1Pair) ::
        (c1Rid, .rating c1Rating2) :: (c1Rid, .rating c1Rating2) :: c1SigmaMid) := by
    simp only [updateReputationInv, getConfigInv, hc2, getOrInitReputation, hrepA2,
      c1Rating2, c1Rep1, c1RepFin, lput, if_pos hhalf, defaultConfig]
  have hupd2b : updateReputationInv c1SigmaMid
      ((repKey aliceS qualityS, .rep c1RepFin) ::
        (raterActorKey bobS aliceS qualityS, .raterActor c1Pair) ::
        (c1Rid, .rating c1Rating2) :: (c1Rid, .rating c1Rating2) :: c1SigmaMid)
      c1Rating2 1000 = .ok c1SigmaFin := by
    simp only [updateReputationInv, getConfigInv, hc2, getOrInitReputation, hrepA2,
      c1Rating2, c1Rep1, c1RepFin, c1SigmaFin, lput, if_pos hhalf, defaultConfig]
  have hrun2 : c1Run2 = .ok (c1Rid, c1SigmaFin) := by
    simp only [c1Run2, hs1, submitRatingInv, bobCaller, normalize_bob, normalize_alice,
      bob_ne_alice_norm, getConfigInv, hc2, elemStr, beq_self_eq_true, Bool.true_or,
      Bool.not_true, Bool.false_eq_true, if_false, ite_false, ite_true, or_self,
      getOrInitStake, hstk2, hw2, lput,
      (show (defaultConfig 0).ValidDimensions = [qualityS, strToGo ("delivery"),
        strToGo ("compliance"), strToGo ("warranty")] from rfl),
      (show (defaultConfig 0).MinStakeRequired = (10000:ℝ) from rfl),
      (by norm_num : ¬((1:ℝ) < 0)), (by norm_num : ¬((1:ℝ) < 1)),
      (by norm_num : ¬((10000:ℝ) < 10000))]
    rw [show generateRatingID bobS aliceS qualityS 1000 = c1Rid from rfl]
    rw [show ({ RatingID := c1Rid, RaterID := bobS, ActorID := aliceS, Dimension := qualityS, Value := 1, Weight := freshRaterWeight (defaultConfig 0), Evidence := strToGo ("e"), Timestamp := 1000, TxID := strToGo ("tx2") } : Rating) = c1Rating2 from rfl]
    rw [show ({ raterId := bobS, actorId := aliceS, dimension := qualityS, ratingId := c1Rid, timestamp := 1000 } : RaterActorRec) = c1Pair from rfl]
    rw [hupd2]
    rw [hupd2b]
  refine ⟨?_, ?_, ?_, ?_, ?_, ?_⟩
  · rw [hrun1, hrun2]
    rfl
  · rw [hs1]
    show repAlphaIn c1SigmaMid aliceS qualityS = _
    simp only [repAlphaIn, c1SigmaMid, lget, eq_self_iff_true, ite_true, c1Rep1]
    ring
  · rw [hs1]
    show repEventsIn c1SigmaMid aliceS qualityS = _
    simp only [repEventsIn, c1SigmaMid, lget, eq_self_iff_true, ite_true, c1Rep1]
    omega
  · rw [hrun2]
    show repAlphaIn c1SigmaFin aliceS qualityS = _
    simp only [repAlphaIn, c1SigmaFin, lget, eq_self_iff_true, ite_true, c1RepFin]
    ring
  · rw [hrun2]
    show repEventsIn c1SigmaFin aliceS qualityS = _
    simp only [repEventsIn, c1SigmaFin, lget, eq_self_iff_true, ite_true, c1RepFin]
    omega
  · intro h
    have hb := freshWeight_default_bounds.1
    nlinarith

/-! ## Claim C10 — the refund uses the dispute cost configured at
resolution time -/

def aliceCaller : Caller where
  id := aliceS
  adminAttr := false
  arbitratorAttr := false

def adminCaller : Caller where
  id := strToGo ("admin")
  adminAttr := true
  arbitratorAttr := false

def c10Rid : GoStr := strToGo ("RATING:r1")

def c10Rating : Rating where
  RatingID := c10Rid
  RaterID := bobS
  ActorID := aliceS
  Dimension := qualityS
  Value := 1
  Weight := 1
  Evidence := []
  Timestamp := 0
  TxID := []

/-- The default configuration with the dispute cost replaced. -/
def c10Cfg (c : ℝ) : SystemConfig := { defaultConfig 0 with DisputeCost := c }

def c10Stk0 (bal0 locked0 : ℝ) : Stake where
  ActorID := aliceS
  Balance := bal0
  Locked := locked0
  UpdatedAt := 0

def c10Sigma (bal0 locked0 c1 : ℝ) : LS :=
  [(configKey, .config (c10Cfg c1)),
   (c10Rid, .rating c10Rating),
   (stakeKey aliceS, .stake (c10Stk0 bal0 locked0))]

def c10Did : GoStr := generateDisputeID c10Rid aliceS 5

def c10Stk1 (bal0 locked0 c1 : ℝ) : Stake where
  ActorID := aliceS
  Balance := bal0 - c1
  Locked := locked0 + c1
  UpdatedAt := 5

def c10Disp : Dispute where
  DisputeID := c10Did
  RatingID := c10Rid
  InitiatorID := aliceS
  RaterID := bobS
  ActorID := aliceS
  Dimension := qualityS
  Reason := []
  Status := pendingStr
  ArbitratorID := []
  ArbitratorNotes := []
  CreatedAt := 5
  ResolvedAt := 0

def c10Sigma1 (bal0 locked0 c1 : ℝ) : LS :=
  (c10Did, .dispute c10Disp) ::
  (stakeKey aliceS, .stake (c10Stk1 bal0 locked0 c1)) :: c10Sigma bal0 locked0 c1

def c10CfgV2 (c2 : ℝ) : SystemConfig :=
  { c10Cfg c2 with Version := (c10Cfg c2).Version + 1, LastUpdated := 6 }

def c10Sigma2 (bal0 locked0 c1 c2 : ℝ) : LS :=
  (configKey, .config (c10CfgV2 c2)) :: c10Sigma1 bal0 locked0 c1

def c10MetaRep (c2 : ℝ) : Reputation where
  ActorID := bobS
  Dimension := metaQualityS
  Alpha := (c10CfgV2 c2).InitialAlpha + 1
  Beta := (c10CfgV2 c2).InitialBeta
  TotalEvents := 0 + 1
  LastTs := 7

def c10Stk2 (bal0 locked0 c1 c2 : ℝ) : Stake where
  ActorID := aliceS
  Balance := bal0 - c1 + (c10CfgV2 c2).DisputeCost
  Locked := locked0 + c1 - (c10CfgV2 c2).DisputeCost
  UpdatedAt := 7

def c10Disp2 : Dispute where
  DisputeID := c10Did
  RatingID := c10Rid
  InitiatorID := aliceS
  RaterID := bobS
  ActorID := aliceS
  Dimension := qualityS
  Reason := []
  Status := upheldStr
  ArbitratorID := strToGo ("arb")
  ArbitratorNotes := []
  CreatedAt := 5
  ResolvedAt := 7

def c10Sigma3 (bal0 locked0 c1 c2 : ℝ) : LS :=
  (c10Did, .dispute c10Disp2) ::
  (stakeKey aliceS, .stake (c10Stk2 bal0 locked0 c1 c2)) ::
  (repKey bobS metaQualityS, .rep (c10MetaRep c2)) :: c10Sigma2 bal0 locked0 c1 c2

/-- The committed ledger after: `alice` disputes the stored rating at
dispute cost `c1`; an admin updates the configuration to dispute cost
`c2`; an arbitrator resolves the dispute `upheld`. -/
def c10After (bal0 locked0 c1 c2 : ℝ) : LS :=
  let σ0 := c10Sigma bal0 locked0 c1
  let r1 := initiateDisputeInv σ0 aliceCaller c10Rid [] 5
  let σ1 := runState r1 σ0
  let σ2 := runStateU (updateConfigInv σ1 adminCaller (c10Cfg c2) 6) σ1
  runStateU (resolveDisputeInv σ2 arbCaller (runId r1) upheldStr [] 7) σ2

theorem normalize_arb : normalizeIdentity (strToGo ("arb")) = strToGo ("arb") := by decide

/-- Shared evaluation of the initiate / update-config / resolve run. -/
theorem c10_run_aux (bal0 locked0 c1 c2 : ℝ)
    (h1 : ¬(bal0 < c1)) (h2 : ¬(c2 < 0)) :
    c10After bal0 locked0 c1 c2 = c10Sigma3 bal0 locked0 c1 c2 := by
  have hCfg0 : lget (c10Sigma bal0 locked0 c1) configKey = some (.config (c10Cfg c1)) := rfl
  have hRat0 : lget (c10Sigma bal0 locked0 c1) c10Rid = some (.rating c10Rating) := rfl
  have hStk0 : getOrInitStake (c10Sigma bal0 locked0 c1) aliceS 5 =
      .ok (c10Stk0 bal0 locked0) := rfl
  have hInit : initiateDisputeInv (c10Sigma bal0 locked0 c1) aliceCaller c10Rid [] 5 =
      .ok (c10Did, c10Sigma1 bal0 locked0 c1) := by
    simp only [initiateDisputeInv, aliceCaller, normalize_alice, hRat0, c10Rating, ne_eq,
      eq_self_iff_true, not_true, ite_false, if_false, getConfigInv, hCfg0, hStk0,
      (show (c10Cfg c1).DisputeCost = c1 from rfl), h1, lput,
      (show generateDisputeID c10Rid aliceS 5 = c10Did from rfl),
      c10Sigma1, c10Stk1, c10Stk0, c10Disp]
  have hVal2 : validateConfig (c10Cfg c2) = true := by
    simp only [validateConfig,
      (show (c10Cfg c2).MinStakeRequired = (10000:ℝ) from rfl),
      (show (c10Cfg c2).DisputeCost = c2 from rfl),
      (show (c10Cfg c2).SlashPercentage = (0.1:ℝ) from rfl),
      (show (c10Cfg c2).DecayRate = (0.98:ℝ) from rfl),
      (show (c10Cfg c2).DecayPeriod = (86400:ℝ) from rfl),
      (show (c10Cfg c2).InitialAlpha = (2:ℝ) from rfl),
      (show (c10Cfg c2).InitialBeta = (2:ℝ) from rfl),
      (show (c10Cfg c2).MinRaterWeight = (0.1:ℝ) from rfl),
      (show (c10Cfg c2).MaxRaterWeight = (5:ℝ) from rfl),
      (show (c10Cfg c2).ValidDimensions = [qualityS, strToGo ("delivery"),
        strToGo ("compliance"), strToGo ("warranty")] from rfl),
      h2, (by norm_num : ¬((10000:ℝ) < 0)),
      (by norm_num : ¬((0.1:ℝ) < 0 ∨ 1 < (0.1:ℝ))),
      (by norm_num : ¬((0.98:ℝ) < 0 ∨ 1 < (0.98:ℝ))),
      (by norm_num : ¬((86400:ℝ) ≤ 0)),
      (by norm_num : ¬((2:ℝ) ≤ 0 ∨ (2:ℝ) ≤ 0)),
      (by norm_num : ¬((0.1:ℝ) < 0 ∨ (5:ℝ) < (0.1:ℝ))),
      List.cons_ne_nil, ite_false, ite_true, if_false]
  have hUpdCfg : updateConfigInv (c10Sigma1 bal0 locked0 c1) adminCaller (c10Cfg c2) 6 =
      .ok (c10Sigma2 bal0 locked0 c1 c2) := by
    simp only [updateConfigInv, isAdmin, adminCaller, Bool.true_or, Bool.not_true,
      Bool.false_eq_true, if_false, ite_false, hVal2, lput, c10Sigma2, c10CfgV2]
  have hCfg2 : lget (c10Sigma2 bal0 locked0 c1 c2) configKey =
      some (.config (c10CfgV2 c2)) := rfl
  have hDisp2 : lget (c10Sigma2 bal0 locked0 c1 c2) c10Did = some (.dispute c10Disp) := by
    simp only [c10Sigma2, c10Sigma1, lget, c10Did, generateDisputeID, config_ne_disputeTag,
      ite_false, eq_self_iff_true, ite_true]
  have hRepBM2 : lget (c10Sigma2 bal0 locked0 c1 c2) (repKey bobS metaQualityS) = none := by
    simp only [c10Sigma2, c10Sigma1, c10Sigma, lget, c10Did, generateDisputeID,
      disputeTag_ne_rep, ite_false,
      (by decide : ¬(configKey = repKey bobS metaQualityS)),
      (by decide : ¬(stakeKey aliceS = repKey bobS metaQualityS)),
      (by decide : ¬(c10Rid = repKey bobS metaQualityS))]
  have hStkA2 : lget (c10Sigma2 bal0 locked0 c1 c2) (stakeKey aliceS) =
      some (.stake (c10Stk1 bal0 locked0 c1)) := by
    simp only [c10Sigma2, c10Sigma1, lget, c10Did, generateDisputeID, disputeTag_ne_stake,
      ite_false, eq_self_iff_true, ite_true,
      (by decide : ¬(configKey = stakeKey aliceS))]
  have hMeta : updateMetaReputationInv (c10Sigma2 bal0 locked0 c1 c2)
      (c10Sigma2 bal0 locked0 c1 c2) bobS qualityS true 7 =
      .ok ((repKey bobS metaQualityS, .rep (c10MetaRep c2)) :: c10Sigma2 bal0 locked0 c1 c2) := by
    simp only [updateMetaReputationInv, getConfigInv, hCfg2,
      (show (c10CfgV2 c2).MetaDimensions = [(qualityS, metaQualityS),
        (strToGo ("delivery"), strToGo ("rating_delivery")),
        (strToGo ("compliance"), strToGo ("rating_compliance")),
        (strToGo ("warranty"), strToGo ("rating_warranty"))] from rfl),
      assocStr, eq_self_iff_true, ite_true, getOrInitReputation, hRepBM2,
      if_pos, c10MetaRep, lput]
  have hRes : resolveDisputeInv (c10Sigma2 bal0 locked0 c1 c2) arbCaller c10Did
      upheldStr [] 7 = .ok (c10Sigma3 bal0 locked0 c1 c2) := by
    simp only [resolveDisputeInv, ne_eq, eq_self_iff_true, not_true, false_and, ite_false,
      if_false, isArbitrator, arbCaller, Bool.true_or, Bool.not_true, Bool.false_eq_true,
      hDisp2, c10Disp, decide_True, hMeta,
      (by decide : ¬(pendingStr ≠ pendingStr)),
      (by decide : ¬(upheldStr = overturnedStr)),
      getConfigInv, hCfg2, getOrInitStake, hStkA2, lput, normalize_arb,
      c10Sigma3, c10Stk2, c10Stk1, c10Disp2]
  simp only [c10After, hInit, runState, runId, hUpdCfg, runStateU, hRes]

/-- C10 (amended): the dispute-cost refund at resolution uses the cost
configured at resolution time, not the amount locked at initiation: after
initiating at cost `c1` and resolving at cost `c2`, the initiator's
balances are `available = bal0 - c1 + c2` and `locked = locked0 + c1 - c2`.
With the cost unchanged both are restored exactly; with an increased cost
the locked balance ends below its pre-dispute value — negative when the
initiator had no other locked funds. -/
theorem resolveDispute_refunds_current_cost (bal0 locked0 c1 c2 : ℝ)
    (h1 : ¬(bal0 < c1)) (h2 : ¬(c2 < 0)) :
    stakeBalIn (c10After bal0 locked0 c1 c2) aliceS = bal0 - c1 + c2 ∧
    stakeLockedIn (c10After bal0 locked0 c1 c2) aliceS = locked0 + c1 - c2 ∧
    (c2 = c1 → stakeBalIn (c10After bal0 locked0 c1 c2) aliceS = bal0 ∧
      stakeLockedIn (c10After bal0 locked0 c1 c2) aliceS = locked0) ∧
    (locked0 = 0 → c1 < c2 → stakeLockedIn (c10After bal0 locked0 c1 c2) aliceS < 0) := by
  have hrun := c10_run_aux bal0 locked0 c1 c2 h1 h2
  have hbal : stakeBalIn (c10After bal0 locked0 c1 c2) aliceS = bal0 - c1 + c2 := by
    rw [hrun]
    simp only [stakeBalIn, c10Sigma3, lget, c10Did, generateDisputeID, disputeTag_ne_stake,
      ite_false, eq_self_iff_true, ite_true, c10Stk2,
      (show (c10CfgV2 c2).DisputeCost = c2 from rfl)]
  have hlok : stakeLockedIn (c10After bal0 locked0 c1 c2) aliceS = locked0 + c1 - c2 := by
    rw [hrun]
    simp only [stakeLockedIn, c10Sigma3, lget, c10Did, generateDisputeID, disputeTag_ne_stake,
      ite_false, eq_self_iff_true, ite_true, c10Stk2,
      (show (c10CfgV2 c2).DisputeCost = c2 from rfl)]
  refine ⟨hbal, hlok, ?_, ?_⟩
  · intro he
    rw [hbal, hlok, he]
    constructor <;> ring
  · intro hl hc
    rw [hlok, hl]
    linarith

/-- C10 counterexample: with pre-existing locked funds (`locked0 = 500`)
and the cost raised from 100 to 150 between initiation and resolution, the
initiator's locked balance ends at 450 — lower than before, but not
negative, refuting the claim's unconditional "becomes negative". -/
theorem resolveDispute_refund_counterexample :
    stakeLockedIn (c10After 1000 500 100 150) aliceS = 450 ∧
    ¬(stakeLockedIn (c10After 1000 500 100 150) aliceS < 0) ∧
    (100:ℝ) < 150 := by
  have hrun := c10_run_aux 1000 500 100 150 (by norm_num) (by norm_num)
  have hlok : stakeLockedIn (c10After 1000 500 100 150) aliceS = 500 + 100 - 150 := by
    rw [hrun]
    simp only [stakeLockedIn, c10Sigma3, lget, c10Did, generateDisputeID, disputeTag_ne_stake,
      ite_false, eq_self_iff_true, ite_true, c10Stk2,
      (show (c10CfgV2 150).DisputeCost = (150:ℝ) from rfl)]
  rw [hlok]
  norm_num

/-- C10 witness: with the cost unchanged at 100, the initiator's balances
are restored exactly to their pre-dispute values. -/
theorem resolveDispute_refunds_current_cost_witness :
    ¬((1000:ℝ) < 100) ∧ ¬((100:ℝ) < 0) ∧
    stakeBalIn (c10After 1000 0 100 100) aliceS = 1000 ∧
    stakeLockedIn (c10After 1000 0 100 100) aliceS = 0 := by
  have h := (resolveDispute_refunds_current_cost 1000 0 100 100 (by norm_num)
    (by norm_num)).2.2.1 rfl
  exact ⟨by norm_num, by norm_num, h.1, h.2⟩

end

end AmRep
